import Mathlib

/-!
Shallow embedding of the Burst Capital portfolio jobs scraper
(`.github/workflows/scraper.py`) and proofs about the claims of its
specification.

Modelling conventions:
* Python strings are `String`; all string operations are re-implemented over
  `List Char` so that they compute in the kernel (`pyStrip`, `pyIn`, ...).
* The external world (HTTP, the HTML parser BeautifulSoup, `json.loads`,
  `urljoin`, Playwright availability) is an `Env` of pure oracle functions.
  An HTML document is abstracted by `SoupDoc`: the pieces of a parsed page the
  scraper actually consumes (anchors, ld+json script bodies, class-carrying
  containers).  `get_text(strip=True)` is modelled by applying `pyStrip` to the
  stored raw text.
* Python exceptions are modelled by `Except String`; a computation that also
  performs network calls lives in `M α = Except String α × List String`, the
  second component being the trace of network operations (GET/POST/RENDER with
  their URL).  `try/except` becomes `M.catch`.
* JSON values (`r.json()` results) are the inductive `Json`; Python `dict.get`,
  subscripting, iteration, truthiness and `or` are embedded by `pyGet`,
  `pyItem`, `pyIndexZero`, `pyIter`, `Json.truthy`, `pyOr`, each raising the
  same class of error the Python operation would raise.
* The duplicated `scrape_generic` in the source (two identical definitions;
  Python keeps the second) is embedded once.
-/

namespace Burst

/-- Characters stripped by Python `str.strip()` (ASCII whitespace). -/
def wsChar (c : Char) : Bool :=
  c = ' ' || c = '\t' || c = '\n' || c = '\r' || c = '\x0b' || c = '\x0c'

/-- The character class `[a-zA-Z0-9_-]` used by the ATS slug patterns. -/
def slugChar (c : Char) : Bool := c.isAlpha || c.isDigit || c = '_' || c = '-'

/-- The character class `[0-9a-f-]` used by the Ashby job-id patterns. -/
def hexDashChar (c : Char) : Bool :=
  ('0' ≤ c && c ≤ '9') || ('a' ≤ c && c ≤ 'f') || c = '-'

/-- Regex word character `\w = [a-zA-Z0-9_]`, used for `\b` boundaries. -/
def wordChar (c : Char) : Bool := c.isAlpha || c.isDigit || c = '_'

def isPrefixL (n h : List Char) : Bool :=
  match n, h with
  | [], _ => true
  | _ :: _, [] => false
  | a :: n', b :: h' => a = b && isPrefixL n' h'

def isInfixL (n : List Char) : List Char → Bool
  | [] => isPrefixL n []
  | c :: t => isPrefixL n (c :: t) || isInfixL n t

/-- Python `needle in hay` on strings. -/
def pyIn (needle hay : String) : Bool := isInfixL needle.toList hay.toList

def rstripL (p : Char → Bool) (l : List Char) : List Char :=
  (l.reverse.dropWhile p).reverse

def stripL (p : Char → Bool) (l : List Char) : List Char :=
  rstripL p (l.dropWhile p)

/-- Python `str.strip()`. -/
def pyStrip (s : String) : String := String.mk (stripL wsChar s.toList)

/-- Python `str.rstrip("/")`. -/
def pyRstripSlash (s : String) : String :=
  String.mk (rstripL (fun c => c = '/') s.toList)

/-- Python `str.lower()`. -/
def pyLowerStr (s : String) : String := String.mk (s.toList.map Char.toLower)

/-- Python `str.capitalize()`: first character upper-cased, rest lower-cased. -/
def pyCapitalizeStr (s : String) : String :=
  match s.toList with
  | [] => ""
  | c :: t => String.mk (c.toUpper :: t.map Char.toLower)

/-- Python `str.startswith`. -/
def pyStartsWith (s pre : String) : Bool := isPrefixL pre.toList s.toList

/-- `re.search` for a pattern of shape `lit([cls]+)`: the leftmost position at
which the literal occurs immediately followed by at least one class character;
the greedy capture of the class run is returned. -/
def findLitClassL (lit : List Char) (p : Char → Bool) : List Char → Option (List Char)
  | [] => none
  | c :: t =>
    let rest := (c :: t).drop lit.length
    if isPrefixL lit (c :: t) && !(rest.takeWhile p).isEmpty then
      some (rest.takeWhile p)
    else findLitClassL lit p t

def findLitClass (lit : String) (p : Char → Bool) (s : String) : Option String :=
  (findLitClassL lit.toList p s.toList).map String.mk

/-- `re.search` for a pattern of shape `lit[cls]{n}`: the leftmost position at
which the literal occurs followed by at least `n` class characters; the first
`n` of them are returned. -/
def findLitExactL (lit : List Char) (p : Char → Bool) (n : Nat) : List Char → Option (List Char)
  | [] => none
  | c :: t =>
    let rest := (c :: t).drop lit.length
    if isPrefixL lit (c :: t) && n ≤ (rest.takeWhile p).length then
      some ((rest.takeWhile p).take n)
    else findLitExactL lit p n t

def findLitExact (lit : String) (p : Char → Bool) (n : Nat) (s : String) : Option String :=
  (findLitExactL lit.toList p n s.toList).map String.mk

/-- One alternative of an alternation pattern: given the rest of the subject at
the current position, the length of the match there, if any. -/
def AltMatcher : Type := List Char → Option Nat

/-- A case-sensitive literal alternative. -/
def litAlt (alt : String) : AltMatcher := fun l =>
  if l.take alt.length = alt.toList then some alt.length else none

/-- A case-insensitive (`re.I`) literal alternative. -/
def litAltCI (alt : String) : AltMatcher := fun l =>
  if (l.take alt.length).map Char.toLower = alt.toList.map Char.toLower then
    some alt.length
  else none

def isUpperAZ (c : Char) : Bool := 'A' ≤ c && c ≤ 'Z'

def isLowerAZ (c : Char) : Bool := 'a' ≤ c && c ≤ 'z'

/-- The alternative `[A-Z][a-z]+,\s*[A-Z]{2}` of the generic adapter's
location pattern. -/
def cityStateAlt : AltMatcher := fun l =>
  match l with
  | [] => none
  | c :: t =>
    if isUpperAZ c then
      let low := t.takeWhile isLowerAZ
      if low.isEmpty then none
      else
        match t.drop low.length with
        | ',' :: u =>
          let sp := u.takeWhile wsChar
          (match u.drop sp.length with
           | a :: b :: _ =>
             if isUpperAZ a && isUpperAZ b then
               some (1 + low.length + 1 + sp.length + 2)
             else none
           | _ => none)
        | _ => none
    else none

/-- `\b` holds after a match (or before position 0) when the adjacent
character is not a word character. -/
def boundaryOk : List Char → Bool
  | [] => true
  | c :: _ => !wordChar c

/-- Try the alternatives of an alternation in order at the current position;
an alternative only succeeds if the trailing `\b` holds. -/
def tryAlts (alts : List AltMatcher) (l : List Char) : Option Nat :=
  match alts with
  | [] => none
  | m :: rest =>
    match m l with
    | some n => if boundaryOk (l.drop n) then some n else tryAlts rest l
    | none => tryAlts rest l

/-- `re.search` for `\b(alt1|alt2|...)\b`: scan positions left to right
(tracking the previous character for the leading `\b`), and at each position
try the alternatives in order.  Returns `group(1)`: the matched slice of the
subject. -/
def findAltL (alts : List AltMatcher) : Option Char → List Char → Option (List Char)
  | prev, l =>
    let okBefore := match prev with | none => true | some c => !wordChar c
    match (if okBefore then tryAlts alts l else none) with
    | some n => some (l.take n)
    | none =>
      match l with
      | [] => none
      | c :: t => findAltL alts (some c) t

def reSearchAlts (alts : List AltMatcher) (s : String) : Option String :=
  (findAltL alts none s.toList).map String.mk

/-- JSON values, the results of `r.json()` / `json.loads`. -/
inductive Json where
  | null : Json
  | bool : Bool → Json
  | num : Int → Json
  | str : String → Json
  | arr : List Json → Json
  | obj : List (String × Json) → Json

/-- Python truthiness of a JSON value. -/
def Json.truthy : Json → Bool
  | .null => false
  | .bool b => b
  | .num n => n != 0
  | .str s => s != ""
  | .arr l => !l.isEmpty
  | .obj l => !l.isEmpty

/-- Python `d.get(key, default)`; raises `AttributeError` when the receiver is
not a dict. -/
def pyGet (j : Json) (k : String) (d : Json) : Except String Json :=
  match j with
  | .obj fs => .ok ((List.lookup k fs).getD d)
  | _ => .error "AttributeError"

/-- Python `d[key]`; raises `KeyError`/`TypeError` like the Python operation. -/
def pyItem (j : Json) (k : String) : Except String Json :=
  match j with
  | .obj fs =>
    (match List.lookup k fs with
     | some v => .ok v
     | none => .error "KeyError")
  | _ => .error "TypeError"

/-- Python `x[0]`. -/
def pyIndexZero (j : Json) : Except String Json :=
  match j with
  | .arr (x :: _) => .ok x
  | .arr [] => .error "IndexError"
  | .str s =>
    (match s.toList with
     | c :: _ => .ok (.str (String.mk [c]))
     | [] => .error "IndexError")
  | _ => .error "TypeError"

/-- Python `for x in v`: lists iterate elements, strings iterate characters,
dicts iterate keys; other values raise `TypeError`. -/
def pyIter (j : Json) : Except String (List Json) :=
  match j with
  | .arr l => .ok l
  | .str s => .ok (s.toList.map (fun c => .str (String.mk [c])))
  | .obj fs => .ok (fs.map (fun p => Json.str p.1))
  | _ => .error "TypeError"

/-- A value about to be used as a Python `str` (e.g. `.strip()` receiver);
anything else raises `AttributeError`. -/
def pyAsStr (j : Json) : Except String String :=
  match j with
  | .str s => .ok s
  | _ => .error "AttributeError"

/-- Python `a or b`. -/
def pyOr (a b : Json) : Json := if a.truthy then a else b

/-- Python f-string rendering of a value.  Containers are abbreviated: no
claim depends on rendering a non-scalar into a URL. -/
def pyStr : Json → String
  | .null => "None"
  | .bool true => "True"
  | .bool false => "False"
  | .num n => toString n
  | .str s => s
  | .arr _ => "<list>"
  | .obj _ => "<dict>"

/-- One normalized job posting (the dict built by `make_job`). -/
structure Job where
  title : String
  department : String
  location : String
  url : Json
  company : String
  company_website : String

/-- One scrape target: `name` is required, `website` optional. -/
structure Company where
  name : String
  website : Option String

/-- An HTTP response: status code, post-redirect URL (`r.url`) and body
(`r.text`). -/
structure HttpResp where
  status : Nat
  finalUrl : String
  body : String

/-- An `<a href=...>` element: its `href`, its raw text (`get_text(strip=True)`
is modelled as `pyStrip text`) and the text of its parent element
(`parent.get_text(" ", strip=True)` if a parent exists, else `""`). -/
structure Anchor where
  href : String
  text : String
  parentText : String

/-- An element carrying a `class` attribute: its class tokens, its first
descendant `<a href=...>` (`container.find("a", href=True)`), and its text. -/
structure Container where
  classes : List String
  anchor : Option Anchor
  text : String

/-- The outcome of parsing an HTML page: the pieces the scraper consumes. -/
structure SoupDoc where
  anchors : List Anchor
  ldScripts : List (Option String)
  classed : List Container

/-- The external world: network, JSON parsing, HTML parsing, URL joining and
Playwright availability, as pure oracle functions.  `none` from a network
function models a raised exception; `none` from `jsonParse` models a
`json.JSONDecodeError`. -/
structure Env where
  httpGet : String → Option HttpResp
  httpPost : String → Option HttpResp
  render : String → Option String
  hasPlaywright : Bool
  jsonParse : String → Option Json
  parseHtml : String → SoupDoc
  urljoin : String → String → String

/-- The effect monad: a possibly-raising result together with the trace of
network operations performed. -/
abbrev M (α : Type) : Type := Except String α × List String

def M.pure {α : Type} (a : α) : M α := (.ok a, [])

def M.bind {α β : Type} (x : M α) (f : α → M β) : M β :=
  match x.1 with
  | .error e => (.error e, x.2)
  | .ok a => ((f a).1, x.2 ++ (f a).2)

/-- `try/except`: on an exception the handler runs; network calls already
performed stay in the trace. -/
def M.catch {α : Type} (x : M α) (h : String → M α) : M α :=
  match x.1 with
  | .ok _ => x
  | .error _ => ((h (match x.1 with | .error e => e | .ok _ => "")).1,
                 x.2 ++ (h (match x.1 with | .error e => e | .ok _ => "")).2)

def M.lift {α : Type} (e : Except String α) : M α := (e, [])

/-- `requests.get`. -/
def netGet (env : Env) (url : String) : M HttpResp :=
  (match env.httpGet url with
   | some r => .ok r
   | none => .error "requests.get failed", ["GET " ++ url])

/-- `requests.post`. -/
def netPost (env : Env) (url : String) : M HttpResp :=
  (match env.httpPost url with
   | some r => .ok r
   | none => .error "requests.post failed", ["POST " ++ url])

/-- A Playwright page load. -/
def netRender (env : Env) (url : String) : M String :=
  (match env.render url with
   | some h => .ok h
   | none => .error "playwright failed", ["RENDER " ++ url])

/-- `r.json()` on a response body. -/
def jsonOf (env : Env) (body : String) : Except String Json :=
  match env.jsonParse body with
  | some j => .ok j
  | none => .error "json decode error"

/-- The plain-requests half of `fetch_html`: GET, return the body on a 200,
`None` otherwise or on any exception. -/
def plainFetch (env : Env) (url : String) : M (Option String) :=
  M.catch
    (M.bind (netGet env url)
      (fun r => M.pure (if r.status = 200 then some r.body else none)))
    (fun _ => M.pure none)

/-- `fetch_html(url, use_playwright)`: optional rendering retrieval falling
back to plain retrieval; never raises. -/
def fetch_html (env : Env) (url : String) (use_playwright : Bool) : M (Option String) :=
  if use_playwright && env.hasPlaywright then
    M.catch (M.bind (netRender env url) (fun h => M.pure (some h)))
      (fun _ => plainFetch env url)
  else plainFetch env url

/-- `make_job` applied to Python `str` arguments. -/
def make_job (title department location : String) (url : Json)
    (company : String) (company_website : String) : Job :=
  { title := pyStrip title
    department := pyStrip (if department = "" then "General" else department)
    location := pyStrip (if location = "" then "Not specified" else location)
    url := url
    company := company
    company_website := company_website }

/-- `make_job` applied to values coming from JSON: `.strip()` on a non-string
raises `AttributeError`; `department or "General"` and
`location or "Not specified"` are Python `or`. -/
def make_jobJ (title department location url : Json)
    (company : String) (company_website : String) : Except String Job := do
  let t ← pyAsStr title
  let d ← pyAsStr (pyOr department (.str "General"))
  let l ← pyAsStr (pyOr location (.str "Not specified"))
  Except.ok
    { title := pyStrip t
      department := pyStrip d
      location := pyStrip l
      url := url
      company := company
      company_website := company_website }

/-- `detect_ats_from_html`. -/
def detect_ats_from_html (html page_url : String) : Option String × Option String :=
  if html = "" then (none, none)
  else if pyIn "ashby_jid=" html then
    (match findLitClass "ashbyhq.com/" slugChar html with
     | some slug => (some "ashby", some slug)
     | none => (some "ashby_embedded", some page_url))
  else if pyIn "jobs.ashbyhq.com" html then
    (match findLitClass "jobs.ashbyhq.com/" slugChar html with
     | some slug => (some "ashby", some slug)
     | none => (none, none))
  else if pyIn "greenhouse.io" html || pyIn "grnh.se" html then
    (match (findLitClass "boards.greenhouse.io/" slugChar html).orElse
             (fun _ => (findLitClass "job-boards.greenhouse.io/" slugChar html).orElse
               (fun _ => findLitClass "greenhouse.io/embed/job_board?for=" slugChar html)) with
     | some slug => (some "greenhouse", some slug)
     | none => (none, none))
  else if pyIn "lever.co" html then
    (match findLitClass "jobs.lever.co/" slugChar html with
     | some slug => (some "lever", some slug)
     | none => (none, none))
  else if pyIn "apply.workable.com" html || pyIn "workable.com" html then
    (match findLitClass "apply.workable.com/" slugChar html with
     | some slug => (some "workable", some slug)
     | none => (none, none))
  else if pyIn "ats.rippling.com" html || pyIn "rippling-ats.com" html then
    (match findLitClass "ats.rippling.com/" slugChar html with
     | some slug => (some "rippling", some slug)
     | none => (none, none))
  else (none, none)

/-- The ordered (pattern, kind) checks of `detect_ats_from_url`. -/
def atsUrlChecks : List (String × String) :=
  [("boards.greenhouse.io/", "greenhouse"),
   ("job-boards.greenhouse.io/", "greenhouse"),
   ("jobs.lever.co/", "lever"),
   ("jobs.ashbyhq.com/", "ashby"),
   ("ashbyhq.com/", "ashby"),
   ("apply.workable.com/", "workable"),
   ("ats.rippling.com/", "rippling")]

def detectUrlGo : List (String × String) → String → Option String × Option String
  | [], _ => (none, none)
  | (pat, ats) :: rest, url =>
    match findLitClass pat slugChar url with
    | some slug => (some ats, some slug)
    | none => detectUrlGo rest url

/-- `detect_ats_from_url`. -/
def detect_ats_from_url (url : String) : Option String × Option String :=
  if url = "" then (none, none) else detectUrlGo atsUrlChecks url

/-- `JOBS_PATHS`. -/
def JOBS_PATHS : List String :=
  ["/careers", "/jobs", "/careers/jobs", "/careers/openings",
   "/careers/open-roles", "/careers/positions", "/careers/listings",
   "/about/careers", "/company/careers", "/join", "/join-us",
   "/open-roles", "/work-with-us", "/hiring", "/openings", "/career"]

/-- `KNOWN_ATS`, in source order (the key `"medely"` appears twice; a Python
dict literal keeps the later binding, which `pyDictGet` reproduces). -/
def KNOWN_ATS : List (String × String × Option String × String) :=
  [("faire", ("greenhouse", some "Faire", "https://boards.greenhouse.io/faire")),
   ("grammarly", ("greenhouse", some "grammarly", "https://boards.greenhouse.io/grammarly")),
   ("instawork", ("greenhouse", some "instawork", "https://boards.greenhouse.io/instawork")),
   ("handshake", ("ashby_embedded", none, "https://joinhandshake.com/careers/")),
   ("lattice", ("greenhouse", some "lattice", "https://boards.greenhouse.io/lattice")),
   ("ada", ("greenhouse", some "ada18", "https://job-boards.greenhouse.io/ada18")),
   ("adquick", ("greenhouse", some "adquick", "https://boards.greenhouse.io/adquick")),
   ("cambly", ("greenhouse", some "cambly", "https://boards.greenhouse.io/cambly")),
   ("curri", ("greenhouse", some "curri", "https://boards.greenhouse.io/curri")),
   ("glossgenius", ("greenhouse", some "glossgenius", "https://boards.greenhouse.io/glossgenius")),
   ("hipcamp", ("greenhouse", some "hipcamp", "https://boards.greenhouse.io/hipcamp")),
   ("owner", ("lever", some "owner", "https://jobs.lever.co/owner")),
   ("bounce", ("ashby_embedded", none, "https://jobs.ashbyhq.com/Bounce")),
   ("lily", ("greenhouse", some "lilyai", "https://boards.greenhouse.io/lilyai")),
   ("medely", ("greenhouse", some "medely", "https://boards.greenhouse.io/medely")),
   ("padlet", ("greenhouse", some "padlet", "https://boards.greenhouse.io/padlet")),
   ("peek", ("greenhouse", some "peek", "https://boards.greenhouse.io/peek")),
   ("workstream", ("greenhouse", some "workstream", "https://boards.greenhouse.io/workstream")),
   ("wonderschool", ("ashby", some "wonderschool", "https://jobs.ashbyhq.com/wonderschool")),
   ("ava", ("ashby", some "ava", "https://jobs.ashbyhq.com/ava")),
   ("resortpass", ("lever", some "resortpass", "https://jobs.lever.co/resortpass")),
   ("overflow", ("lever", some "overflow", "https://jobs.lever.co/overflow")),
   ("huckleberry", ("lever", some "huckleberry", "https://jobs.lever.co/huckleberry")),
   ("goodtime", ("lever", some "goodtime", "https://jobs.lever.co/goodtime")),
   ("sourcegraph", ("lever", some "sourcegraph", "https://jobs.lever.co/sourcegraph")),
   ("liftoff", ("lever", some "liftoff", "https://jobs.lever.co/liftoff")),
   ("trendsi", ("lever", some "trendsi", "https://jobs.lever.co/trendsi")),
   ("lilo", ("lever", some "lilo", "https://jobs.lever.co/lilo")),
   ("willow", ("yc", some "willow", "https://www.ycombinator.com/companies/willow/jobs")),
   ("woz", ("yc", some "woz", "https://www.ycombinator.com/companies/woz/jobs")),
   ("namespace", ("yc", some "namespace", "https://www.ycombinator.com/companies/namespace/jobs")),
   ("sibli", ("yc", some "sibli", "https://www.ycombinator.com/companies/sibli/jobs")),
   ("allstripes (acquired by picnic health)", ("greenhouse", some "picnichealth", "https://boards.greenhouse.io/picnichealth")),
   ("northstar (acquired by nayya health)", ("greenhouse", some "nayya", "https://boards.greenhouse.io/nayya")),
   ("via (acquired by justworks)", ("greenhouse", some "justworks", "https://boards.greenhouse.io/justworks")),
   ("yik yak (acquired by sidechat)", ("greenhouse", some "sidechat", "https://boards.greenhouse.io/sidechat")),
   ("setter.com (acquired by thumbtack)", ("greenhouse", some "thumbtackjobs", "https://boards.greenhouse.io/thumbtackjobs")),
   ("assemble (acquired by deel)", ("ashby", some "deel", "https://jobs.ashbyhq.com/deel")),
   ("carebrain", ("greenhouse", some "carebrain", "https://boards.greenhouse.io/carebrain")),
   ("sprx technologies", ("greenhouse", some "sprx", "https://boards.greenhouse.io/sprx")),
   ("resq", ("ashby", some "ResQ", "https://jobs.ashbyhq.com/ResQ")),
   ("medely", ("ashby", some "medely", "https://jobs.ashbyhq.com/medely")),
   ("standard fleet", ("ashby", some "StandardFleet", "https://jobs.ashbyhq.com/StandardFleet"))]

/-- Lookup in a Python dict literal given as an association list with possibly
repeated keys: the later binding wins. -/
def pyDictGet {α : Type} (l : List (String × α)) (k : String) : Option α :=
  l.foldl (fun acc p => if p.1 = k then some p.2 else acc) none

/-- `CAREERS_KEYWORDS` of `find_jobs_page`. -/
def CAREERS_KEYWORDS : List String :=
  ["career", "job", "hiring", "join us", "open role",
   "we\x27re hiring", "opening", "position", "work with us"]

/-- The city alternation of `scrape_ashby_embedded`, pattern 1 (`re.I`). -/
def embCities1 : List AltMatcher :=
  [litAltCI "Remote", litAltCI "New York", litAltCI "San Francisco",
   litAltCI "Los Angeles", litAltCI "Austin", litAltCI "London",
   litAltCI "Chicago", litAltCI "Seattle", litAltCI "Boston",
   litAltCI "Denver", litAltCI "NYC", litAltCI "SF", litAltCI "Portland",
   litAltCI "Atlanta", litAltCI "Miami", litAltCI "Washington",
   litAltCI "Philadelphia", litAltCI "Toronto", litAltCI "Vancouver",
   litAltCI "Berlin", litAltCI "Paris", litAltCI "Amsterdam"]

/-- The city alternation of `scrape_ashby_embedded`, pattern 2 (`re.I`). -/
def embCities2 : List AltMatcher :=
  [litAltCI "Remote", litAltCI "New York", litAltCI "San Francisco",
   litAltCI "Los Angeles", litAltCI "Austin", litAltCI "London",
   litAltCI "Chicago", litAltCI "Seattle", litAltCI "Boston",
   litAltCI "Denver", litAltCI "NYC", litAltCI "SF", litAltCI "Portugal",
   litAltCI "Tokyo"]

/-- Python truthiness of an optional string. -/
def truthyOpt (o : Option String) : Bool :=
  match o with
  | some s => s ≠ ""
  | none => false

/-- `re.sub(r'\s*View\s*$', '', s)`: remove a trailing "View" together with
the whitespace around it, if present. -/
def reSubViewEnd (s : String) : String :=
  let t := rstripL wsChar s.toList
  if List.isSuffixOf "View".toList t then
    String.mk (rstripL wsChar (t.take (t.length - 4)))
  else s

/-- Pattern 1 of `scrape_ashby_embedded`: anchors whose `href` carries
`ashby_jid=`, deduplicated by title through `seen`. -/
def embPat1 (env : Env) (jobs_url company : String) :
    List Anchor → List Job → List String → List Job × List String
  | [], jobs, seen => (jobs, seen)
  | a :: rest, jobs, seen =>
    if !pyIn "ashby_jid=" a.href then embPat1 env jobs_url company rest jobs seen
    else
      let title := pyStrip (reSubViewEnd (pyStrip a.text))
      if title = "" || seen.contains title || title.length < 3 then
        embPat1 env jobs_url company rest jobs seen
      else
        let job_url : Json :=
          match findLitExact "ashby_jid=" hexDashChar 36 a.href with
          | some u => .str ("https://app.ashbyhq.com/jobs/" ++ u)
          | none => .str (env.urljoin jobs_url a.href)
        let loc := (reSearchAlts embCities1 a.parentText).getD ""
        embPat1 env jobs_url company rest
          (jobs ++ [make_job title "General" loc job_url company ""])
          (seen ++ [title])

/-- Pattern 2 of `scrape_ashby_embedded`: `jobs.ashbyhq.com/Slug/uuid` links on
an Ashby-hosted board, sharing the `seen` set with pattern 1. -/
def embPat2 (env : Env) (jobs_url company : String) (slug : Option String) :
    List Anchor → List Job → List String → List Job
  | [], jobs, _ => jobs
  | a :: rest, jobs, seen =>
    let full := env.urljoin jobs_url a.href
    let slugSkip :=
      truthyOpt slug
        && !pyIn ("/" ++ slug.getD "" ++ "/") full
        && !pyIn ("ashbyhq.com/" ++ slug.getD "" ++ "/") full
    if slugSkip then embPat2 env jobs_url company slug rest jobs seen
    else if !(findLitExact "/" hexDashChar 36 full).isSome then
      embPat2 env jobs_url company slug rest jobs seen
    else
      let title := pyStrip a.text
      if title = "" || seen.contains title || title.length < 3 then
        embPat2 env jobs_url company slug rest jobs seen
      else
        let loc := (reSearchAlts embCities2 a.parentText).getD ""
        embPat2 env jobs_url company slug rest
          (jobs ++ [make_job title "General" loc (.str full) company ""])
          (seen ++ [title])

/-- `scrape_ashby_embedded`. -/
def scrape_ashby_embedded (env : Env) (jobs_url company : String) : M (List Job) :=
  M.bind (fetch_html env jobs_url true) (fun html? =>
    match html? with
    | none => M.pure []
    | some html =>
      if html = "" then M.pure []
      else
        let doc := env.parseHtml html
        let p1 := embPat1 env jobs_url company doc.anchors [] []
        if p1.1.isEmpty then
          let slug := findLitClass "ashbyhq.com/" (fun c => c ≠ '/') jobs_url
          M.pure (embPat2 env jobs_url company slug doc.anchors p1.1 p1.2)
        else M.pure p1.1)

/-- One schema.org `JobPosting` item of the generic adapter's strategy 1. -/
def schemaItem (item : Json) (jobs_url company : String) : Except String (Option Job) := do
  let t ← pyGet item "@type" .null
  match t with
  | .str s =>
    if s = "JobPosting" then do
      let locRaw ← pyGet item "jobLocation" .null
      let locObj := pyOr locRaw (.obj [])
      let addrRaw ← pyGet locObj "address" .null
      let addr := pyOr addrRaw (.obj [])
      let loc : Json :=
        match addr with
        | .obj fs => (List.lookup "addressLocality" fs).getD (.str "")
        | _ => .str ""
      let title ← pyGet item "title" (.str "")
      let cat ← pyGet item "occupationalCategory" (.str "General")
      let url ← pyGet item "url" (.str jobs_url)
      let job ← make_jobJ title cat loc url company ""
      Except.ok (some job)
    else Except.ok none
  | _ => Except.ok none

/-- Items of one ld+json script; an exception mid-script keeps the jobs
appended so far (the Python `try` wraps the whole per-script loop while
`jobs` is shared). -/
def schemaItems (jobs_url company : String) : List Json → List Job → List Job
  | [], acc => acc
  | i :: rest, acc =>
    match schemaItem i jobs_url company with
    | .error _ => acc
    | .ok none => schemaItems jobs_url company rest acc
    | .ok (some job) => schemaItems jobs_url company rest (acc ++ [job])

/-- All ld+json scripts of the page (`json.loads` failures are swallowed per
script). -/
def schemaScripts (env : Env) (jobs_url company : String) :
    List (Option String) → List Job → List Job
  | [], acc => acc
  | s :: rest, acc =>
    let acc' :=
      match env.jsonParse (s.getD "") with
      | none => acc
      | some d =>
        schemaItems jobs_url company (match d with | .arr xs => xs | x => [x]) acc
    schemaScripts env jobs_url company rest acc'

/-- Strategy 1 of the generic adapter: schema.org `JobPosting` extraction. -/
def scrape_generic_schema (env : Env) (doc : SoupDoc) (jobs_url company : String) : List Job :=
  schemaScripts env jobs_url company doc.ldScripts []

/-- The class keywords of the generic adapter's strategy 2
(`job|position|role|opening|listing|posting|career|vacancy`, `re.I`). -/
def classKw : List String :=
  ["job", "position", "role", "opening", "listing", "posting", "career", "vacancy"]

def classMatches (classes : List String) : Bool :=
  classes.any (fun s => classKw.any (fun kw => pyIn kw (pyLowerStr s)))

/-- The location alternation of the generic adapter's strategy 2
(case-sensitive). -/
def genericCities : List AltMatcher :=
  [litAlt "Remote", litAlt "New York", litAlt "San Francisco",
   litAlt "Los Angeles", litAlt "Austin", litAlt "London", litAlt "Chicago",
   litAlt "Seattle", litAlt "Boston", litAlt "Denver", cityStateAlt]

/-- Strategy 2 of the generic adapter: class-keyword containers, one link
each, deduplicated by title. -/
def genericContainers (env : Env) (jobs_url company : String) :
    List Container → List Job → List String → List Job × List String
  | [], jobs, seen => (jobs, seen)
  | c :: rest, jobs, seen =>
    match c.anchor with
    | none => genericContainers env jobs_url company rest jobs seen
    | some a =>
      let title := pyStrip a.text
      if title = "" || title.length < 3 || seen.contains title then
        genericContainers env jobs_url company rest jobs seen
      else
        let loc := (reSearchAlts genericCities c.text).getD ""
        genericContainers env jobs_url company rest
          (jobs ++ [make_job title "General" loc (.str (env.urljoin jobs_url a.href)) company ""])
          (seen ++ [title])

/-- The job-title keywords of the generic adapter's strategy 3 (`re.I`). -/
def titleKw : List String :=
  ["engineer", "manager", "designer", "analyst", "director", "specialist",
   "coordinator", "lead", "head of", "vp ", "senior", "junior", "intern",
   "developer", "scientist", "recruiter", "executive", "associate"]

def titleKwMatch (title : String) : Bool :=
  titleKw.any (fun kw => pyIn kw (pyLowerStr title))

/-- Strategy 3 of the generic adapter: all links whose text looks like a job
title, deduplicated by URL through the shared `seen` set. -/
def genericLinks (env : Env) (jobs_url company : String) :
    List Anchor → List Job → List String → List Job
  | [], jobs, _ => jobs
  | a :: rest, jobs, seen =>
    let title := pyStrip a.text
    if 5 < title.length && title.length < 100 && titleKwMatch title then
      let full := env.urljoin jobs_url a.href
      if seen.contains full then genericLinks env jobs_url company rest jobs seen
      else
        genericLinks env jobs_url company rest
          (jobs ++ [make_job title "General" "" (.str full) company ""])
          (seen ++ [full])
    else genericLinks env jobs_url company rest jobs seen

/-- The three generic strategies on a parsed page, in strict priority order. -/
def genericFromDoc (env : Env) (doc : SoupDoc) (jobs_url company : String) : List Job :=
  let jobs1 := scrape_generic_schema env doc jobs_url company
  if !jobs1.isEmpty then jobs1
  else
    let p2 := genericContainers env jobs_url company
      ((doc.classed.filter (fun c => classMatches c.classes)).take 150) [] []
    if !p2.1.isEmpty then p2.1
    else (genericLinks env jobs_url company doc.anchors p2.1 p2.2).take 200

/-- `scrape_generic` (the second, surviving definition in the source). -/
def scrape_generic (env : Env) (jobs_url company : String) : M (List Job) :=
  if jobs_url = "" then M.pure []
  else
    M.bind (fetch_html env jobs_url true) (fun html? =>
      match html? with
      | none => M.pure []
      | some html =>
        if html = "" then M.pure []
        else if pyIn "ashby_jid=" html then scrape_ashby_embedded env jobs_url company
        else M.pure (genericFromDoc env (env.parseHtml html) jobs_url company))

def greenhouseUrl (slug : String) : String :=
  "https://boards-api.greenhouse.io/v1/boards/" ++ slug ++ "/jobs?content=true"

/-- One Greenhouse job item (`depts[0]["name"]` can raise). -/
def greenhouseItem (j : Json) (company fallback_url : String) : Except String Job := do
  let depts ← pyGet j "departments" (.arr [.obj []])
  let dept ←
    if depts.truthy then do
      let d0 ← pyIndexZero depts
      pyItem d0 "name"
    else Except.ok (Json.str "General")
  let locObj ← pyGet j "location" (.obj [])
  let loc ← pyGet locObj "name" (.str "")
  let title ← pyGet j "title" (.str "")
  let url ← pyGet j "absolute_url" (.str fallback_url)
  make_jobJ title dept loc url company ""

/-- The body of the `try` in `scrape_greenhouse`, after the GET. -/
def greenhouseBody (env : Env) (body company fallback_url : String) :
    Except String (List Job) := do
  let data ← jsonOf env body
  let jobsJ ← pyGet data "jobs" (.arr [])
  let items ← pyIter jobsJ
  items.mapM (fun j => greenhouseItem j company fallback_url)

/-- `scrape_greenhouse`. -/
def scrape_greenhouse (env : Env) (slug company fallback_url : String) : M (List Job) :=
  M.catch
    (M.bind (netGet env (greenhouseUrl slug))
      (fun r => M.lift (greenhouseBody env r.body company fallback_url)))
    (fun _ => scrape_generic env fallback_url company)

def leverUrl (slug : String) : String :=
  "https://api.lever.co/v0/postings/" ++ slug ++ "?mode=json"

/-- One Lever posting item. -/
def leverItem (j : Json) (company fallback_url : String) : Except String Job := do
  let cats ← pyGet j "categories" (.obj [])
  let deptDefault ← pyGet cats "department" (.str "General")
  let dept ← pyGet cats "team" deptDefault
  let locDefault ← pyGet cats "location" (.str "")
  let loc ←
    match cats with
    | .obj fs =>
      (match List.lookup "allLocations" fs with
       | some jl => if jl.truthy then pyIndexZero jl else Except.ok (Json.str "")
       | none => Except.ok locDefault)
    | _ => Except.error "AttributeError"
  let title ← pyGet j "text" (.str "")
  let url ← pyGet j "hostedUrl" (.str fallback_url)
  make_jobJ title dept loc url company ""

/-- The body of the `try` in `scrape_lever`: a non-list response raises. -/
def leverBody (env : Env) (body company fallback_url : String) :
    Except String (List Job) := do
  let data ← jsonOf env body
  match data with
  | .arr items => items.mapM (fun j => leverItem j company fallback_url)
  | _ => Except.error "Unexpected Lever response"

/-- `scrape_lever`. -/
def scrape_lever (env : Env) (slug company fallback_url : String) : M (List Job) :=
  M.catch
    (M.bind (netGet env (leverUrl slug))
      (fun r => M.lift (leverBody env r.body company fallback_url)))
    (fun _ => scrape_generic env fallback_url company)

def ashbyUrl (slug : String) : String :=
  "https://api.ashbyhq.com/posting-api/job-board/" ++ slug

/-- One Ashby job item. -/
def ashbyItem (j : Json) (company fallback_url : String) : Except String Job := do
  let locN ← pyGet j "locationName" .null
  let locL ← pyGet j "location" .null
  let remote ← pyGet j "isRemote" .null
  let loc := pyOr locN (pyOr locL (.str (if remote.truthy then "Remote" else "")))
  let dN ← pyGet j "departmentName" .null
  let dD ← pyGet j "department" .null
  let dT ← pyGet j "team" .null
  let dept := pyOr dN (pyOr dD (pyOr dT (.str "General")))
  let uP ← pyGet j "jobPostingUrl" .null
  let uJ ← pyGet j "jobUrl" .null
  let url := pyOr uP (pyOr uJ (.str fallback_url))
  let title ← pyGet j "title" (.str "")
  make_jobJ title dept loc url company ""

/-- The body of one Ashby API attempt, after the GET. -/
def ashbyBody (env : Env) (body company fallback_url : String) :
    Except String (List Job) := do
  let data ← jsonOf env body
  let p ← pyGet data "jobPostings" .null
  let q ← pyGet data "jobs" .null
  let items ← pyIter (pyOr p (pyOr q (.arr [])))
  items.mapM (fun j => ashbyItem j company fallback_url)

/-- One iteration of the slug-variant loop in `scrape_ashby`: any exception is
swallowed (`except: pass`). -/
def ashbyAttempt (env : Env) (try_slug company fallback_url : String) : M (List Job) :=
  M.catch
    (M.bind (netGet env (ashbyUrl try_slug))
      (fun r => M.lift (ashbyBody env r.body company fallback_url)))
    (fun _ => M.pure [])

/-- The slug-variant loop of `scrape_ashby`; when every variant produced zero
jobs, fall back to embedded parsing. -/
def ashbyLoop (env : Env) (company fallback_url : String) : List String → M (List Job)
  | [] => scrape_ashby_embedded env fallback_url company
  | v :: rest =>
    M.bind (ashbyAttempt env v company fallback_url) (fun jobs =>
      if jobs.isEmpty then ashbyLoop env company fallback_url rest else M.pure jobs)

/-- `scrape_ashby`. -/
def scrape_ashby (env : Env) (slug company fallback_url : String) : M (List Job) :=
  ashbyLoop env company fallback_url [slug, pyLowerStr slug, pyCapitalizeStr slug]

def workableUrl (slug : String) : String :=
  "https://apply.workable.com/api/v3/accounts/" ++ slug ++ "/jobs"

/-- One Workable job item. -/
def workableItem (slug : String) (j : Json) (company : String) : Except String Job := do
  let locTest ← pyGet j "location" .null
  let loc0 ←
    if locTest.truthy then do
      let lo ← pyGet j "location" (.obj [])
      pyGet lo "city" (.str "")
    else Except.ok (Json.str "")
  let remote ← pyGet j "remote" .null
  let loc := if remote.truthy then Json.str "Remote" else loc0
  let title ← pyGet j "title" (.str "")
  let dept ← pyGet j "department" (.str "General")
  let sc ← pyGet j "shortcode" (.str "")
  let url := Json.str ("https://apply.workable.com/" ++ slug ++ "/j/" ++ pyStr sc ++ "/")
  make_jobJ title dept loc url company ""

/-- The body of the `try` in `scrape_workable`, after the POST. -/
def workableBody (env : Env) (body slug company : String) : Except String (List Job) := do
  let data ← jsonOf env body
  let res ← pyGet data "results" (.arr [])
  let items ← pyIter res
  items.mapM (fun j => workableItem slug j company)

/-- `scrape_workable`. -/
def scrape_workable (env : Env) (slug company fallback_url : String) : M (List Job) :=
  M.catch
    (M.bind (netPost env (workableUrl slug))
      (fun r => M.lift (workableBody env r.body slug company)))
    (fun _ => scrape_generic env fallback_url company)

def ripplingUrl (slug : String) : String :=
  "https://ats.rippling.com/api/v1/" ++ slug ++ "/jobs?limit=200"

/-- One Rippling job item (fields may be scalar or nested objects). -/
def ripplingItem (slug : String) (j : Json) (company fallback_url : String) :
    Except String Job := do
  let tN ← pyGet j "name" (.str "")
  let title ← pyGet j "title" tN
  let dT ← pyGet j "team" (.str "General")
  let dRaw ← pyGet j "department" dT
  let d1 := pyOr dRaw (.str "General")
  let dept :=
    match d1 with
    | .obj fs => (List.lookup "name" fs).getD (.str "General")
    | x => x
  let lN ← pyGet j "locationName" (.str "")
  let lRaw ← pyGet j "location" lN
  let loc0 :=
    match lRaw with
    | .obj fs => (List.lookup "city" fs).getD ((List.lookup "name" fs).getD (.str ""))
    | x => x
  let remote ← pyGet j "remote" .null
  let loc := if remote.truthy then Json.str "Remote" else loc0
  let idS ← pyGet j "slug" (.str "")
  let jid ← pyGet j "id" idS
  let url :=
    if jid.truthy then
      Json.str ("https://ats.rippling.com/" ++ slug ++ "/jobs/" ++ pyStr jid)
    else Json.str fallback_url
  make_jobJ title dept loc url company ""

/-- The body of the `try` in `scrape_rippling`, after the GET. -/
def ripplingBody (env : Env) (body slug company fallback_url : String) :
    Except String (List Job) := do
  let data ← jsonOf env body
  let itemsJ ←
    match data with
    | .arr l => Except.ok (Json.arr l)
    | _ => do
      let r1 ← pyGet data "results" (.arr [])
      pyGet data "jobs" r1
  let items ← pyIter itemsJ
  items.mapM (fun j => ripplingItem slug j company fallback_url)

/-- `scrape_rippling`: the generic fallback runs both on an exception and on a
zero-job API result. -/
def scrape_rippling (env : Env) (slug company fallback_url : String) : M (List Job) :=
  M.bind
    (M.catch
      (M.bind (netGet env (ripplingUrl slug))
        (fun r => M.lift (ripplingBody env r.body slug company fallback_url)))
      (fun _ => M.pure []))
    (fun jobs =>
      if jobs.isEmpty then
        scrape_generic env
          (if fallback_url = "" then "https://ats.rippling.com/" ++ slug ++ "/jobs"
           else fallback_url)
          company
      else M.pure jobs)

def ycUrl (slug : String) : String :=
  "https://www.ycombinator.com/companies/" ++ slug ++ "/jobs.json"

/-- One YC job item from the JSON API. -/
def ycItem (slug : String) (j : Json) (company : String) : Except String Job := do
  let loc ← pyGet j "location" (.str "San Francisco, CA")
  let dT ← pyGet j "type" (.str "General")
  let dept ← pyGet j "subtype" dT
  let js ← pyGet j "slug" (.str "")
  let url := Json.str ("https://www.ycombinator.com/companies/" ++ slug ++ "/jobs/" ++ pyStr js)
  let title ← pyGet j "title" (.str "")
  make_jobJ title dept loc url company ""

/-- The body of the first `try` in `scrape_yc`, after the GET. -/
def ycBody (env : Env) (body slug company : String) : Except String (List Job) := do
  let data ← jsonOf env body
  let items ← pyIter data
  items.mapM (fun j => ycItem slug j company)

/-- The city alternation of the YC HTML fallback (`re.I`). -/
def ycCities : List AltMatcher :=
  [litAltCI "Remote", litAltCI "San Francisco", litAltCI "New York",
   litAltCI "Austin", litAltCI "Seattle", litAltCI "Boston"]

/-- The anchor scan of the YC HTML fallback. -/
def ycLinks (slug company : String) : List Anchor → List Job → List String → List Job
  | [], jobs, _ => jobs
  | a :: rest, jobs, seen =>
    if !pyIn ("/companies/" ++ slug ++ "/jobs/") a.href then
      ycLinks slug company rest jobs seen
    else
      let title := pyStrip a.text
      if title = "" || seen.contains title then ycLinks slug company rest jobs seen
      else
        let loc := (reSearchAlts ycCities a.parentText).getD "San Francisco, CA"
        ycLinks slug company rest
          (jobs ++ [make_job title "General" loc
            (.str ("https://www.ycombinator.com" ++ a.href)) company ""])
          (seen ++ [title])

/-- The second `try` of `scrape_yc`: parse the public jobs page. -/
def ycFallback (env : Env) (slug company fallback_url : String) : M (List Job) :=
  M.catch
    (M.bind (fetch_html env fallback_url false) (fun html? =>
      match html? with
      | none => M.pure []
      | some html =>
        if html = "" then M.pure []
        else M.pure (ycLinks slug company (env.parseHtml html).anchors [] [])))
    (fun _ => M.pure [])

/-- `scrape_yc`. -/
def scrape_yc (env : Env) (slug company fallback_url : String) : M (List Job) :=
  M.bind
    (M.catch
      (M.bind (netGet env (ycUrl slug))
        (fun r => M.lift (ycBody env r.body slug company)))
      (fun _ => M.pure []))
    (fun jobs =>
      if jobs.isEmpty then ycFallback env slug company fallback_url else M.pure jobs)

def careersLinkHit (href_lower text : String) : Bool :=
  CAREERS_KEYWORDS.any (fun kw => pyIn kw href_lower || pyIn kw text)

/-- The result quadruple of `find_jobs_page`/`check_page`:
(page url, ats kind, slug, html). -/
abbrev FRes : Type := Option String × Option String × Option String × Option String

/-- The anchor loop of `check_page`: careers-looking links, classified by URL
first, then by a one-hop fetch of the linked page. -/
def checkAnchors (env : Env) (url : String) : List Anchor → M FRes
  | [] => M.pure (none, none, none, none)
  | a :: rest =>
    let href := a.href
    let text := pyLowerStr (pyStrip a.text)
    let href_lower := pyLowerStr href
    if !careersLinkHit href_lower text then checkAnchors env url rest
    else
      let full_url := env.urljoin url href
      if pyRstripSlash full_url = pyRstripSlash url || pyStartsWith href "#" then
        checkAnchors env url rest
      else
        match detect_ats_from_url full_url with
        | (some ats, slug) => M.pure (some full_url, some ats, slug, none)
        | (none, _) =>
          M.bind (fetch_html env full_url false) (fun sub? =>
            match sub? with
            | some sub =>
              if sub = "" then checkAnchors env url rest
              else
                (match detect_ats_from_html sub full_url with
                 | (some ats, slug) => M.pure (some full_url, some ats, slug, some sub)
                 | (none, _) => checkAnchors env url rest)
            | none => checkAnchors env url rest)

/-- `check_page` of `find_jobs_page`. -/
def check_page (env : Env) (url html : String) : M FRes :=
  match detect_ats_from_html html url with
  | (some ats, slug) => M.pure (some url, some ats, slug, some html)
  | (none, _) => checkAnchors env url (env.parseHtml html).anchors

/-- Step 2 of `find_jobs_page`: the conventional-path loop.  The first 200
response longer than 500 characters terminates the loop. -/
def pathsLoop (env : Env) (base : String) : List String → M FRes
  | [] => M.pure (none, none, none, none)
  | path :: rest =>
    M.bind
      (M.catch
        (M.bind (netGet env (base ++ path)) (fun r =>
          if r.status = 200 && 500 < r.body.length then
            match detect_ats_from_url r.finalUrl with
            | (some ats, slug) =>
              M.pure (some ((some r.finalUrl, some ats, slug, none) : FRes))
            | (none, _) =>
              M.bind (check_page env r.finalUrl r.body) (fun res =>
                match res with
                | (fu, some ats, slug, h) => M.pure (some ((fu, some ats, slug, h) : FRes))
                | _ => M.pure (some ((some r.finalUrl, none, none, some r.body) : FRes)))
          else M.pure none))
        (fun _ => M.pure none))
      (fun found? =>
        match found? with
        | some res => M.pure res
        | none => pathsLoop env base rest)

/-- `find_jobs_page`. -/
def find_jobs_page (env : Env) (base0 : String) : M FRes :=
  let base := pyRstripSlash base0
  M.bind (fetch_html env base false) (fun html? =>
    M.bind
      (match html? with
       | some html =>
         if html = "" then M.pure ((none, none, none, none) : FRes)
         else check_page env base html
       | none => M.pure ((none, none, none, none) : FRes))
      (fun res =>
        match res with
        | (u, some ats, slug, h) => M.pure ((u, some ats, slug, h) : FRes)
        | _ => pathsLoop env base JOBS_PATHS))

/-- `route_to_scraper`. -/
def route_to_scraper (env : Env) (ats : String) (slug : Option String)
    (name jobs_url : String) : M (List Job) :=
  if ats = "greenhouse" && truthyOpt slug then
    scrape_greenhouse env (slug.getD "") name jobs_url
  else if ats = "lever" && truthyOpt slug then
    scrape_lever env (slug.getD "") name jobs_url
  else if ats = "ashby" && truthyOpt slug then
    scrape_ashby env (slug.getD "") name jobs_url
  else if (ats = "ashby_embedded" || ats = "ashby") && !truthyOpt slug then
    scrape_ashby_embedded env jobs_url name
  else if ats = "workable" && truthyOpt slug then
    scrape_workable env (slug.getD "") name jobs_url
  else if ats = "yc" && truthyOpt slug then
    scrape_yc env (slug.getD "") name jobs_url
  else if ats = "rippling" && truthyOpt slug then
    scrape_rippling env (slug.getD "") name jobs_url
  else scrape_generic env jobs_url name

/-- `j["company_website"] = website`. -/
def setWebsite (website : String) (j : Job) : Job :=
  { j with company_website := website }

/-- Steps 2-4 of `scrape_company`: the auto-detection part after the override
block fell through. -/
def scrape_company_auto (env : Env) (name website : String) : M (List Job × Option String) :=
  if website = "" then M.pure ([], some "no website")
  else
    M.bind (find_jobs_page env website) (fun res =>
      match res with
      | (ju, ats?, slug, _h) =>
        if truthyOpt ju && truthyOpt ats? then
          M.bind (route_to_scraper env (ats?.getD "") slug name (ju.getD "")) (fun jobs =>
            M.pure (jobs.map (setWebsite website), none))
        else if truthyOpt ju then
          M.bind (scrape_generic env (ju.getD "") name) (fun jobs =>
            M.pure (jobs.map (setWebsite website), none))
        else M.pure ([], some "no jobs page found"))

/-- `scrape_company`: override lookup first; a non-empty override result is
returned (with the website stamped on), otherwise auto-detection runs. -/
def scrape_company (env : Env) (c : Company) : M (List Job × Option String) :=
  let name := c.name
  let website := pyRstripSlash (c.website.getD "")
  match pyDictGet KNOWN_ATS (pyLowerStr name) with
  | some (ats, slug, jobs_url) =>
    M.bind (route_to_scraper env ats slug name jobs_url) (fun jobs =>
      if jobs.isEmpty then scrape_company_auto env name website
      else M.pure (jobs.map (setWebsite website), none))
  | none => scrape_company_auto env name website

/-! ## Reduction lemmas for the effect monad -/

@[simp] theorem M.pure_eq {α : Type} (a : α) : M.pure a = (Except.ok a, ([] : List String)) := rfl

@[simp] theorem M.bind_mk_ok {α β : Type} (a : α) (t : List String) (f : α → M β) :
    M.bind (Except.ok a, t) f = ((f a).1, t ++ (f a).2) := rfl

@[simp] theorem M.bind_mk_error {α β : Type} (e : String) (t : List String) (f : α → M β) :
    M.bind (Except.error e, t) f = (Except.error e, t) := rfl

@[simp] theorem M.catch_mk_ok {α : Type} (a : α) (t : List String) (h : String → M α) :
    M.catch (Except.ok a, t) h = (Except.ok a, t) := rfl

@[simp] theorem M.catch_mk_error {α : Type} (e : String) (t : List String) (h : String → M α) :
    M.catch (Except.error e, t) h = ((h e).1, t ++ (h e).2) := rfl

/-- A computation that does not raise: its result component is `Except.ok`. -/
def M.Ok {α : Type} (x : M α) : Prop := ∃ a, x.1 = Except.ok a

theorem M.Ok.pure {α : Type} (a : α) : M.Ok (M.pure a) := ⟨a, rfl⟩

theorem M.Ok.bind {α β : Type} {x : M α} {f : α → M β}
    (hx : M.Ok x) (hf : ∀ a, M.Ok (f a)) : M.Ok (M.bind x f) := by
  obtain ⟨a, ha⟩ := hx
  obtain ⟨b, hb⟩ := hf a
  exact ⟨b, by simp [M.bind, ha, hb]⟩

theorem M.Ok.catch {α : Type} {x : M α} {h : String → M α}
    (hh : ∀ e, M.Ok (h e)) : M.Ok (M.catch x h) := by
  rcases hx : x.1 with e | a
  · obtain ⟨b, hb⟩ := hh e
    exact ⟨b, by simp [M.catch, hx, hb]⟩
  · exact ⟨a, by simp [M.catch, hx]⟩

/-! ## No component of the scraper raises past its boundary -/

theorem plainFetch_ok (env : Env) (url : String) : M.Ok (plainFetch env url) :=
  M.Ok.catch (fun _ => M.Ok.pure _)

theorem fetch_html_ok (env : Env) (url : String) (pw : Bool) :
    M.Ok (fetch_html env url pw) := by
  unfold fetch_html
  split
  · exact M.Ok.catch (fun _ => plainFetch_ok env url)
  · exact plainFetch_ok env url

theorem scrape_ashby_embedded_ok (env : Env) (jobs_url company : String) :
    M.Ok (scrape_ashby_embedded env jobs_url company) := by
  unfold scrape_ashby_embedded
  refine M.Ok.bind (fetch_html_ok env jobs_url true) ?_
  intro h?
  cases h? with
  | none => exact M.Ok.pure _
  | some html =>
    dsimp only
    split
    · exact M.Ok.pure _
    · split
      · exact M.Ok.pure _
      · exact M.Ok.pure _

theorem scrape_generic_ok (env : Env) (jobs_url company : String) :
    M.Ok (scrape_generic env jobs_url company) := by
  unfold scrape_generic
  split
  · exact M.Ok.pure _
  · refine M.Ok.bind (fetch_html_ok env jobs_url true) ?_
    intro h?
    cases h? with
    | none => exact M.Ok.pure _
    | some html =>
      dsimp only
      split
      · exact M.Ok.pure _
      · split
        · exact scrape_ashby_embedded_ok env jobs_url company
        · exact M.Ok.pure _

theorem scrape_greenhouse_ok (env : Env) (slug company fallback_url : String) :
    M.Ok (scrape_greenhouse env slug company fallback_url) :=
  M.Ok.catch (fun _ => scrape_generic_ok env fallback_url company)

theorem scrape_lever_ok (env : Env) (slug company fallback_url : String) :
    M.Ok (scrape_lever env slug company fallback_url) :=
  M.Ok.catch (fun _ => scrape_generic_ok env fallback_url company)

theorem scrape_workable_ok (env : Env) (slug company fallback_url : String) :
    M.Ok (scrape_workable env slug company fallback_url) :=
  M.Ok.catch (fun _ => scrape_generic_ok env fallback_url company)

theorem ashbyAttempt_ok (env : Env) (try_slug company fallback_url : String) :
    M.Ok (ashbyAttempt env try_slug company fallback_url) :=
  M.Ok.catch (fun _ => M.Ok.pure _)

theorem ashbyLoop_ok (env : Env) (company fallback_url : String) :
    ∀ l : List String, M.Ok (ashbyLoop env company fallback_url l) := by
  intro l
  induction l with
  | nil => exact scrape_ashby_embedded_ok env fallback_url company
  | cons v rest ih =>
    refine M.Ok.bind (ashbyAttempt_ok env v company fallback_url) ?_
    intro jobs
    dsimp only
    split
    · exact ih
    · exact M.Ok.pure _

theorem scrape_ashby_ok (env : Env) (slug company fallback_url : String) :
    M.Ok (scrape_ashby env slug company fallback_url) :=
  ashbyLoop_ok env company fallback_url _

theorem scrape_rippling_ok (env : Env) (slug company fallback_url : String) :
    M.Ok (scrape_rippling env slug company fallback_url) := by
  unfold scrape_rippling
  refine M.Ok.bind (M.Ok.catch fun _ => M.Ok.pure _) ?_
  intro jobs
  dsimp only
  split
  · exact scrape_generic_ok env _ company
  · exact M.Ok.pure _

theorem ycFallback_ok (env : Env) (slug company fallback_url : String) :
    M.Ok (ycFallback env slug company fallback_url) :=
  M.Ok.catch (fun _ => M.Ok.pure _)

theorem scrape_yc_ok (env : Env) (slug company fallback_url : String) :
    M.Ok (scrape_yc env slug company fallback_url) := by
  unfold scrape_yc
  refine M.Ok.bind (M.Ok.catch fun _ => M.Ok.pure _) ?_
  intro jobs
  dsimp only
  split
  · exact ycFallback_ok env slug company fallback_url
  · exact M.Ok.pure _

theorem route_to_scraper_ok (env : Env) (ats : String) (slug : Option String)
    (name jobs_url : String) : M.Ok (route_to_scraper env ats slug name jobs_url) := by
  unfold route_to_scraper
  split
  · exact scrape_greenhouse_ok env _ name jobs_url
  · split
    · exact scrape_lever_ok env _ name jobs_url
    · split
      · exact scrape_ashby_ok env _ name jobs_url
      · split
        · exact scrape_ashby_embedded_ok env jobs_url name
        · split
          · exact scrape_workable_ok env _ name jobs_url
          · split
            · exact scrape_yc_ok env _ name jobs_url
            · split
              · exact scrape_rippling_ok env _ name jobs_url
              · exact scrape_generic_ok env jobs_url name

theorem checkAnchors_ok (env : Env) (url : String) :
    ∀ l : List Anchor, M.Ok (checkAnchors env url l) := by
  intro l
  induction l with
  | nil => exact M.Ok.pure _
  | cons a rest ih =>
    unfold checkAnchors
    dsimp only
    split
    · exact ih
    · split
      · exact ih
      · rcases hd : detect_ats_from_url (env.urljoin url a.href) with ⟨a?, s⟩
        cases a? with
        | some ats => exact M.Ok.pure _
        | none =>
          refine M.Ok.bind (fetch_html_ok env _ false) ?_
          intro sub?
          cases sub? with
          | none => exact ih
          | some sub =>
            dsimp only
            split
            · exact ih
            · rcases hd2 : detect_ats_from_html sub (env.urljoin url a.href) with ⟨a2, s2⟩
              cases a2 with
              | some ats2 => exact M.Ok.pure _
              | none => exact ih

theorem check_page_ok (env : Env) (url html : String) :
    M.Ok (check_page env url html) := by
  unfold check_page
  rcases hd : detect_ats_from_html html url with ⟨a?, s⟩
  cases a? with
  | some ats => exact M.Ok.pure _
  | none => exact checkAnchors_ok env url _

theorem pathsLoop_ok (env : Env) (base : String) :
    ∀ l : List String, M.Ok (pathsLoop env base l) := by
  intro l
  induction l with
  | nil => exact M.Ok.pure _
  | cons p rest ih =>
    unfold pathsLoop
    refine M.Ok.bind (M.Ok.catch fun _ => M.Ok.pure _) ?_
    intro found?
    cases found? with
    | none => exact ih
    | some res => exact M.Ok.pure _

theorem find_jobs_page_ok (env : Env) (base0 : String) :
    M.Ok (find_jobs_page env base0) := by
  unfold find_jobs_page
  refine M.Ok.bind (fetch_html_ok env _ false) ?_
  intro h?
  refine M.Ok.bind ?_ ?_
  · cases h? with
    | none => exact M.Ok.pure _
    | some html =>
      dsimp only
      split
      · exact M.Ok.pure _
      · exact check_page_ok env _ html
  · intro res
    rcases res with ⟨u, a?, s, h⟩
    cases a? with
    | some ats => exact M.Ok.pure _
    | none => exact pathsLoop_ok env _ _

theorem scrape_company_auto_ok (env : Env) (name website : String) :
    M.Ok (scrape_company_auto env name website) := by
  unfold scrape_company_auto
  split
  · exact M.Ok.pure _
  · refine M.Ok.bind (find_jobs_page_ok env website) ?_
    intro res
    rcases res with ⟨ju, a?, s, h⟩
    dsimp only
    split
    · exact M.Ok.bind (route_to_scraper_ok env _ s name _) (fun _ => M.Ok.pure _)
    · split
      · exact M.Ok.bind (scrape_generic_ok env _ name) (fun _ => M.Ok.pure _)
      · exact M.Ok.pure _

theorem scrape_company_ok (env : Env) (c : Company) :
    M.Ok (scrape_company env c) := by
  unfold scrape_company
  dsimp only
  rcases h : pyDictGet KNOWN_ATS (pyLowerStr c.name) with _ | ⟨ats, slug, jobs_url⟩
  · exact scrape_company_auto_ok env c.name _
  · refine M.Ok.bind (route_to_scraper_ok env ats slug c.name jobs_url) ?_
    intro jobs
    dsimp only
    split
    · exact scrape_company_auto_ok env c.name _
    · exact M.Ok.pure _

/-! ## Behaviour when every network operation fails (unreachable hosts) -/

theorem M.bind_eq_ok {α β : Type} {x : M α} {f : α → M β} {a : α} {t : List String}
    (hx : x = (Except.ok a, t)) {y : Except String β} {t' : List String}
    (hf : f a = (y, t')) : M.bind x f = (y, t ++ t') := by
  rw [hx, M.bind_mk_ok, hf]

theorem M.bind_eq_error {α β : Type} {x : M α} {f : α → M β} {e : String}
    {t : List String} (hx : x = (Except.error e, t)) :
    M.bind x f = (Except.error e, t) := by
  rw [hx, M.bind_mk_error]

theorem M.catch_eq_of_error {α : Type} {x : M α} {h : String → M α} {e : String}
    {t : List String} (hx : x = (Except.error e, t)) {y : Except String α}
    {t' : List String} (hh : h e = (y, t')) : M.catch x h = (y, t ++ t') := by
  rw [hx, M.catch_mk_error, hh]

theorem M.catch_eq_of_ok {α : Type} {x : M α} {h : String → M α} {a : α}
    {t : List String} (hx : x = (Except.ok a, t)) : M.catch x h = (Except.ok a, t) := by
  rw [hx, M.catch_mk_ok]

theorem netGet_down (env : Env) (hg : ∀ u, env.httpGet u = none) (url : String) :
    netGet env url = (Except.error "requests.get failed", ["GET " ++ url]) := by
  simp [netGet, hg url]

theorem netPost_down (env : Env) (hp : ∀ u, env.httpPost u = none) (url : String) :
    netPost env url = (Except.error "requests.post failed", ["POST " ++ url]) := by
  simp [netPost, hp url]

theorem netRender_down (env : Env) (hr : ∀ u, env.render u = none) (url : String) :
    netRender env url = (Except.error "playwright failed", ["RENDER " ++ url]) := by
  simp [netRender, hr url]

theorem plainFetch_down (env : Env) (hg : ∀ u, env.httpGet u = none) (url : String) :
    plainFetch env url = (Except.ok none, ["GET " ++ url]) :=
  M.catch_eq_of_error (M.bind_eq_error (netGet_down env hg url)) rfl

theorem fetch_html_down (env : Env) (hg : ∀ u, env.httpGet u = none)
    (hr : ∀ u, env.render u = none) (url : String) (pw : Bool) :
    ∃ tr, fetch_html env url pw = (Except.ok none, tr) := by
  unfold fetch_html
  split
  · exact ⟨_, M.catch_eq_of_error (M.bind_eq_error (netRender_down env hr url))
      (plainFetch_down env hg url)⟩
  · exact ⟨_, plainFetch_down env hg url⟩

theorem scrape_ashby_embedded_down (env : Env) (hg : ∀ u, env.httpGet u = none)
    (hr : ∀ u, env.render u = none) (jobs_url company : String) :
    ∃ tr, scrape_ashby_embedded env jobs_url company = (Except.ok [], tr) := by
  obtain ⟨t1, h1⟩ := fetch_html_down env hg hr jobs_url true
  exact ⟨_, M.bind_eq_ok h1 rfl⟩

theorem scrape_generic_down (env : Env) (hg : ∀ u, env.httpGet u = none)
    (hr : ∀ u, env.render u = none) (url company : String) :
    ∃ tr, scrape_generic env url company = (Except.ok [], tr) := by
  unfold scrape_generic
  split
  · exact ⟨[], rfl⟩
  · obtain ⟨t1, h1⟩ := fetch_html_down env hg hr url true
    exact ⟨_, M.bind_eq_ok h1 rfl⟩

theorem scrape_greenhouse_down (env : Env) (hg : ∀ u, env.httpGet u = none)
    (hr : ∀ u, env.render u = none) (slug company fallback_url : String) :
    ∃ tr, scrape_greenhouse env slug company fallback_url = (Except.ok [], tr) := by
  obtain ⟨t2, h2⟩ := scrape_generic_down env hg hr fallback_url company
  exact ⟨_, M.catch_eq_of_error (M.bind_eq_error (netGet_down env hg (greenhouseUrl slug))) h2⟩

theorem scrape_lever_down (env : Env) (hg : ∀ u, env.httpGet u = none)
    (hr : ∀ u, env.render u = none) (slug company fallback_url : String) :
    ∃ tr, scrape_lever env slug company fallback_url = (Except.ok [], tr) := by
  obtain ⟨t2, h2⟩ := scrape_generic_down env hg hr fallback_url company
  exact ⟨_, M.catch_eq_of_error (M.bind_eq_error (netGet_down env hg (leverUrl slug))) h2⟩

theorem scrape_workable_down (env : Env) (hg : ∀ u, env.httpGet u = none)
    (hp : ∀ u, env.httpPost u = none) (hr : ∀ u, env.render u = none)
    (slug company fallback_url : String) :
    ∃ tr, scrape_workable env slug company fallback_url = (Except.ok [], tr) := by
  obtain ⟨t2, h2⟩ := scrape_generic_down env hg hr fallback_url company
  exact ⟨_, M.catch_eq_of_error (M.bind_eq_error (netPost_down env hp (workableUrl slug))) h2⟩

theorem ashbyAttempt_down (env : Env) (hg : ∀ u, env.httpGet u = none)
    (try_slug company fallback_url : String) :
    ashbyAttempt env try_slug company fallback_url =
      (Except.ok [], ["GET " ++ ashbyUrl try_slug] ++ []) :=
  M.catch_eq_of_error (M.bind_eq_error (netGet_down env hg (ashbyUrl try_slug))) rfl

theorem ashbyLoop_down (env : Env) (hg : ∀ u, env.httpGet u = none)
    (hr : ∀ u, env.render u = none) (company fallback_url : String) :
    ∀ l : List String, ∃ tr, ashbyLoop env company fallback_url l = (Except.ok [], tr) := by
  intro l
  induction l with
  | nil => exact scrape_ashby_embedded_down env hg hr fallback_url company
  | cons v rest ih =>
    obtain ⟨t2, h2⟩ := ih
    exact ⟨_, M.bind_eq_ok (ashbyAttempt_down env hg v company fallback_url) h2⟩

theorem scrape_ashby_down (env : Env) (hg : ∀ u, env.httpGet u = none)
    (hr : ∀ u, env.render u = none) (slug company fallback_url : String) :
    ∃ tr, scrape_ashby env slug company fallback_url = (Except.ok [], tr) :=
  ashbyLoop_down env hg hr company fallback_url _

theorem scrape_rippling_down (env : Env) (hg : ∀ u, env.httpGet u = none)
    (hr : ∀ u, env.render u = none) (slug company fallback_url : String) :
    ∃ tr, scrape_rippling env slug company fallback_url = (Except.ok [], tr) := by
  obtain ⟨t2, h2⟩ := scrape_generic_down env hg hr
    (if fallback_url = "" then "https://ats.rippling.com/" ++ slug ++ "/jobs" else fallback_url)
    company
  have hx : M.catch
      (M.bind (netGet env (ripplingUrl slug))
        (fun r => M.lift (ripplingBody env r.body slug company fallback_url)))
      (fun _ => M.pure []) =
      (Except.ok ([] : List Job), ["GET " ++ ripplingUrl slug] ++ []) :=
    M.catch_eq_of_error (M.bind_eq_error (netGet_down env hg (ripplingUrl slug))) rfl
  exact ⟨_, M.bind_eq_ok hx h2⟩

theorem ycFallback_down (env : Env) (hg : ∀ u, env.httpGet u = none)
    (hr : ∀ u, env.render u = none) (slug company fallback_url : String) :
    ∃ tr, ycFallback env slug company fallback_url = (Except.ok [], tr) := by
  obtain ⟨t1, h1⟩ := fetch_html_down env hg hr fallback_url false
  exact ⟨_, M.catch_eq_of_ok (M.bind_eq_ok h1 rfl)⟩

theorem scrape_yc_down (env : Env) (hg : ∀ u, env.httpGet u = none)
    (hr : ∀ u, env.render u = none) (slug company fallback_url : String) :
    ∃ tr, scrape_yc env slug company fallback_url = (Except.ok [], tr) := by
  obtain ⟨t2, h2⟩ := ycFallback_down env hg hr slug company fallback_url
  have hx : M.catch
      (M.bind (netGet env (ycUrl slug))
        (fun r => M.lift (ycBody env r.body slug company)))
      (fun _ => M.pure []) =
      (Except.ok ([] : List Job), ["GET " ++ ycUrl slug] ++ []) :=
    M.catch_eq_of_error (M.bind_eq_error (netGet_down env hg (ycUrl slug))) rfl
  exact ⟨_, M.bind_eq_ok hx h2⟩

theorem route_to_scraper_down (env : Env) (hg : ∀ u, env.httpGet u = none)
    (hp : ∀ u, env.httpPost u = none) (hr : ∀ u, env.render u = none)
    (ats : String) (slug : Option String) (name jobs_url : String) :
    ∃ tr, route_to_scraper env ats slug name jobs_url = (Except.ok [], tr) := by
  unfold route_to_scraper
  split
  · exact scrape_greenhouse_down env hg hr _ name jobs_url
  · split
    · exact scrape_lever_down env hg hr _ name jobs_url
    · split
      · exact scrape_ashby_down env hg hr _ name jobs_url
      · split
        · exact scrape_ashby_embedded_down env hg hr jobs_url name
        · split
          · exact scrape_workable_down env hg hp hr _ name jobs_url
          · split
            · exact scrape_yc_down env hg hr _ name jobs_url
            · split
              · exact scrape_rippling_down env hg hr _ name jobs_url
              · exact scrape_generic_down env hg hr jobs_url name

theorem pathsLoop_down (env : Env) (hg : ∀ u, env.httpGet u = none) (base : String) :
    ∀ l : List String,
      ∃ tr, pathsLoop env base l = (Except.ok ((none, none, none, none) : FRes), tr) := by
  intro l
  induction l with
  | nil => exact ⟨[], rfl⟩
  | cons p rest ih =>
    obtain ⟨t2, h2⟩ := ih
    exact ⟨_, M.bind_eq_ok
      (M.catch_eq_of_error (M.bind_eq_error (netGet_down env hg (base ++ p))) rfl) h2⟩

theorem find_jobs_page_down (env : Env) (hg : ∀ u, env.httpGet u = none)
    (hr : ∀ u, env.render u = none) (base0 : String) :
    ∃ tr, find_jobs_page env base0 = (Except.ok ((none, none, none, none) : FRes), tr) := by
  obtain ⟨t1, h1⟩ := fetch_html_down env hg hr (pyRstripSlash base0) false
  obtain ⟨t2, h2⟩ := pathsLoop_down env hg (pyRstripSlash base0) JOBS_PATHS
  exact ⟨_, M.bind_eq_ok h1 (M.bind_eq_ok rfl h2)⟩

theorem scrape_company_auto_down (env : Env) (hg : ∀ u, env.httpGet u = none)
    (hr : ∀ u, env.render u = none) (name website : String) :
    ∃ r tr, scrape_company_auto env name website = (Except.ok ([], some r), tr) ∧ r ≠ "" := by
  unfold scrape_company_auto
  split
  · exact ⟨"no website", [], rfl, by decide⟩
  · obtain ⟨t1, h1⟩ := find_jobs_page_down env hg hr website
    exact ⟨"no jobs page found", _, M.bind_eq_ok h1 rfl, by decide⟩

/-- Claim C1: for every company record, `scrape_company` never raises; and
whenever every network operation fails (an unreachable host), the outcome is
an empty job list together with a non-empty failure reason. -/
theorem claim1_orchestrator_never_raises (env : Env) (c : Company) :
    (∃ out, (scrape_company env c).1 = Except.ok out) ∧
    ((∀ u, env.httpGet u = none) → (∀ u, env.httpPost u = none) →
     (∀ u, env.render u = none) →
     ∃ r tr, scrape_company env c = (Except.ok ([], some r), tr) ∧ r ≠ "") := by
  constructor
  · exact scrape_company_ok env c
  · intro hg hp hr
    unfold scrape_company
    dsimp only
    rcases hov : pyDictGet KNOWN_ATS (pyLowerStr c.name) with _ | ⟨ats, slug, jobs_url⟩
    · exact scrape_company_auto_down env hg hr c.name _
    · obtain ⟨t1, h1⟩ := route_to_scraper_down env hg hp hr ats slug c.name jobs_url
      obtain ⟨r, t2, h2, hr2⟩ :=
        scrape_company_auto_down env hg hr c.name (pyRstripSlash (c.website.getD ""))
      exact ⟨r, _, M.bind_eq_ok h1 h2, hr2⟩

/-- A concrete environment in which every network operation fails. -/
def envDown : Env :=
  { httpGet := fun _ => none
    httpPost := fun _ => none
    render := fun _ => none
    hasPlaywright := true
    jsonParse := fun _ => none
    parseHtml := fun _ => ⟨[], [], []⟩
    urljoin := fun a b => a ++ b }

/-- Witness for C1 at a concrete company and the all-failing environment. -/
theorem claim1_witness :
    (∃ out, (scrape_company envDown ⟨"Examplecorp", some "https://example.com"⟩).1 = Except.ok out) ∧
    (∃ r tr, scrape_company envDown ⟨"Examplecorp", some "https://example.com"⟩ =
      (Except.ok ([], some r), tr) ∧ r ≠ "") := by
  have h := claim1_orchestrator_never_raises envDown ⟨"Examplecorp", some "https://example.com"⟩
  exact ⟨h.1, h.2 (fun _ => rfl) (fun _ => rfl) (fun _ => rfl)⟩

/-! ## The ScrapeOutcome is exclusive (claim C4) -/

theorem M.bind_fst_ok {α β : Type} {x : M α} {f : α → M β} {a : α}
    (hx : x.1 = Except.ok a) : (M.bind x f).1 = (f a).1 := by
  simp [M.bind, hx]

theorem scrape_company_auto_err_empty (env : Env) (name website : String)
    {jobs : List Job} {err : String}
    (h : (scrape_company_auto env name website).1 = Except.ok (jobs, some err)) :
    jobs = [] := by
  unfold scrape_company_auto at h
  split at h
  · simp only [M.pure_eq, Except.ok.injEq, Prod.mk.injEq] at h
    exact h.1.symm
  · obtain ⟨res, hres⟩ := find_jobs_page_ok env website
    rw [M.bind_fst_ok hres] at h
    rcases res with ⟨ju, a?, s, hh⟩
    dsimp only at h
    split at h
    · obtain ⟨jv, hjv⟩ := route_to_scraper_ok env (a?.getD "") s name (ju.getD "")
      rw [M.bind_fst_ok hjv] at h
      simp only [M.pure_eq, Except.ok.injEq, Prod.mk.injEq] at h
      exact absurd h.2 (by simp)
    · split at h
      · obtain ⟨jv, hjv⟩ := scrape_generic_ok env (ju.getD "") name
        rw [M.bind_fst_ok hjv] at h
        simp only [M.pure_eq, Except.ok.injEq, Prod.mk.injEq] at h
        exact absurd h.2 (by simp)
      · simp only [M.pure_eq, Except.ok.injEq, Prod.mk.injEq] at h
        exact h.1.symm

/-- Claim C4: whenever `scrape_company` reports a failure reason, the
accompanying job list is empty — a non-empty job list is never paired with a
failure reason. -/
theorem claim4_outcome_exclusive (env : Env) (c : Company) (jobs : List Job)
    (err : String) (tr : List String)
    (h : scrape_company env c = (Except.ok (jobs, some err), tr)) : jobs = [] := by
  have h1 : (scrape_company env c).1 = Except.ok (jobs, some err) := by rw [h]
  unfold scrape_company at h1
  dsimp only at h1
  rcases hov : pyDictGet KNOWN_ATS (pyLowerStr c.name) with _ | ⟨ats, slug, jobs_url⟩
  · rw [hov] at h1
    exact scrape_company_auto_err_empty env c.name _ h1
  · rw [hov] at h1
    obtain ⟨jv, hjv⟩ := route_to_scraper_ok env ats slug c.name jobs_url
    rw [M.bind_fst_ok hjv] at h1
    split at h1
    · exact scrape_company_auto_err_empty env c.name _ h1
    · simp only [M.pure_eq, Except.ok.injEq, Prod.mk.injEq] at h1
      exact absurd h1.2 (by simp)

/-- Witness for C4: the hypothesis is satisfiable at a concrete input, where
the theorem then applies. -/
theorem claim4_witness :
    scrape_company envDown ⟨"Examplecorp", none⟩ = (Except.ok ([], some "no website"), []) ∧
    ([] : List Job) = [] :=
  ⟨rfl, claim4_outcome_exclusive envDown ⟨"Examplecorp", none⟩ [] "no website" [] rfl⟩

/-! ## The no-website rule and its override exception (claim C5) -/

/-- Amended claim C5: a company with no website field *whose name has no
override entry* scrapes to `([], "no website")` with zero network calls. -/
theorem claim5_amended_no_website (env : Env) (c : Company)
    (hw : c.website = none)
    (hov : pyDictGet KNOWN_ATS (pyLowerStr c.name) = none) :
    scrape_company env c = (Except.ok ([], some "no website"), []) := by
  unfold scrape_company
  dsimp only
  rw [hov, hw]
  rfl

theorem claim5_amended_witness :
    scrape_company envDown ⟨"Examplecorp", none⟩ = (Except.ok ([], some "no website"), []) :=
  claim5_amended_no_website envDown ⟨"Examplecorp", none⟩ rfl (by decide)

/-- A concrete environment in which the Greenhouse board of the override entry
for "faire" answers with one job; everything else is unreachable. -/
def envGH : Env :=
  { httpGet := fun u => if u = greenhouseUrl "Faire" then some ⟨200, u, "GHBODY"⟩ else none
    httpPost := fun _ => none
    render := fun _ => none
    hasPlaywright := false
    jsonParse := fun s =>
      if s = "GHBODY" then
        some (Json.obj [("jobs", Json.arr [Json.obj
          [("title", Json.str "Engineer"),
           ("departments", Json.arr [Json.obj [("name", Json.str "Eng")]]),
           ("location", Json.obj [("name", Json.str "NYC")]),
           ("absolute_url", Json.str "https://x/1")]])])
      else none
    parseHtml := fun _ => ⟨[], [], []⟩
    urljoin := fun a b => a ++ b }

/-- The job `envGH` produces, before the website is stamped on. -/
def jobFaire : Job :=
  { title := "Engineer", department := "Eng", location := "NYC"
    url := Json.str "https://x/1", company := "Faire", company_website := "" }

/-- Counterexample to C5 as stated: "Faire" has no website field, yet
`scrape_company` consults the override table first, performs a network call,
and returns one job with no failure reason — not `([], "no website")` with
zero network calls. -/
theorem claim5_counterexample :
    (⟨"Faire", none⟩ : Company).website = none ∧
    scrape_company envGH ⟨"Faire", none⟩ =
      (Except.ok ([jobFaire], none), ["GET " ++ greenhouseUrl "Faire"]) ∧
    (["GET " ++ greenhouseUrl "Faire"] : List String) ≠ [] :=
  ⟨rfl, rfl, by decide⟩

/-! ## Override bypass (claim C6) -/

/-- Claim C6: when the lowercased company name is in the override table, a
non-empty job list from the override's adapter is returned directly — the
trace is exactly the adapter's trace, so the jobs-page locator contributed no
fetch; a zero-job override falls through to auto-detection. -/
theorem claim6_override_bypass (env : Env) (c : Company) (ats : String)
    (slug : Option String) (url : String) (jobs : List Job) (tr : List String)
    (hov : pyDictGet KNOWN_ATS (pyLowerStr c.name) = some (ats, slug, url))
    (hroute : route_to_scraper env ats slug c.name url = (Except.ok jobs, tr)) :
    (jobs ≠ [] → scrape_company env c =
      (Except.ok (jobs.map (setWebsite (pyRstripSlash (c.website.getD ""))), none), tr)) ∧
    (jobs = [] → scrape_company env c =
      ((scrape_company_auto env c.name (pyRstripSlash (c.website.getD ""))).1,
       tr ++ (scrape_company_auto env c.name (pyRstripSlash (c.website.getD ""))).2)) := by
  constructor
  · intro hne
    unfold scrape_company
    dsimp only
    rw [hov]
    dsimp only
    rw [hroute, M.bind_mk_ok]
    have hie : jobs.isEmpty = false := by
      cases jobs with
      | nil => exact absurd rfl hne
      | cons a l => rfl
    rw [hie]
    simp only [Bool.false_eq_true, if_false, M.pure_eq, List.append_nil]
  · intro he
    subst he
    unfold scrape_company
    dsimp only
    rw [hov]
    dsimp only
    rw [hroute, M.bind_mk_ok]
    rfl

/-- Witness for C6, non-empty branch: the "faire" override produces one job in
`envGH`, which is returned with the website stamped on and with exactly the
adapter's single network call as the trace. -/
theorem claim6_witness :
    scrape_company envGH ⟨"Faire", some "https://faire.com"⟩ =
      (Except.ok ([setWebsite "https://faire.com" jobFaire], none),
       ["GET " ++ greenhouseUrl "Faire"]) :=
  (claim6_override_bypass envGH ⟨"Faire", some "https://faire.com"⟩ "greenhouse"
    (some "Faire") "https://boards.greenhouse.io/faire" [jobFaire]
    ["GET " ++ greenhouseUrl "Faire"] rfl rfl).1 (by simp)

/-! ## Classifier behaviour on a signature without a slug (claim C2) -/

/-- Counterexample to C2 as stated: the Lever signature substring is present
and the slug pattern fails to match, yet the classifier returns the unknown
result `(none, none)` — not `(some "lever", none)`. -/
theorem claim2_counterexample :
    pyIn "lever.co" "see jobs.lever.co page" = true ∧
    findLitClass "jobs.lever.co/" slugChar "see jobs.lever.co page" = none ∧
    detect_ats_from_html "see jobs.lever.co page" "https://acme.com" = (none, none) ∧
    ((none, none) : Option String × Option String) ≠ (some "lever", none) :=
  ⟨by decide, by decide, rfl, by decide⟩

/-- Amended claim C2: only the embedded-widget marker branch behaves this way:
when `ashby_jid=` is present in the HTML and the `ashbyhq.com/` slug pattern
fails, the classifier returns `("ashby_embedded", page_url)` rather than
unknown; every hosted-domain signature whose slug pattern fails yields
`(none, none)`. -/
theorem claim2_amended_embedded_marker (html page_url : String)
    (hsig : pyIn "ashby_jid=" html = true)
    (hslug : findLitClass "ashbyhq.com/" slugChar html = none) :
    detect_ats_from_html html page_url = (some "ashby_embedded", some page_url) := by
  have hne : html ≠ "" := by
    intro h
    subst h
    exact absurd hsig (by decide)
  unfold detect_ats_from_html
  rw [if_neg hne, if_pos hsig, hslug]

theorem claim2_amended_witness :
    detect_ats_from_html "x ashby_jid= y" "https://pg.example" =
      (some "ashby_embedded", some "https://pg.example") :=
  claim2_amended_embedded_marker "x ashby_jid= y" "https://pg.example"
    (by decide) (by decide)

/-! ## Normalization defaults (claim C3) -/

/-- Counterexample to C3 as stated: a well-formed Greenhouse job with the
optional location missing normalizes to location `"Not specified"`, not `""`. -/
theorem claim3_counterexample :
    (greenhouseItem (Json.obj [("title", Json.str "Engineer"),
        ("departments", Json.arr [Json.obj [("name", Json.str "Eng")]])])
      "Acme" "https://fb").map Job.location = Except.ok "Not specified" ∧
    ("Not specified" : String) ≠ "" :=
  ⟨rfl, by decide⟩

/-- Amended claim C3: normalization of a record whose title is a non-blank
string and whose department/location source fields are absent (falsy) yields a
non-empty title, department `"General"` and location `"Not specified"`. -/
theorem claim3_amended_defaults (t : String) (d l url : Json) (c w : String)
    (ht : pyStrip t ≠ "") (hd : d.truthy = false) (hl : l.truthy = false) :
    ∃ job, make_jobJ (Json.str t) d l url c w = Except.ok job ∧
      job.title ≠ "" ∧ job.department = "General" ∧ job.location = "Not specified" := by
  have h1 : pyOr d (Json.str "General") = Json.str "General" := by
    simp [pyOr, hd]
  have h2 : pyOr l (Json.str "Not specified") = Json.str "Not specified" := by
    simp [pyOr, hl]
  refine ⟨{ title := pyStrip t, department := "General", location := "Not specified",
            url := url, company := c, company_website := w }, ?_, ht, rfl, rfl⟩
  unfold make_jobJ
  rw [h1, h2]
  rfl

theorem claim3_amended_witness :
    ∃ job, make_jobJ (Json.str "Engineer ") Json.null (Json.str "")
        (Json.str "https://u") "Acme" "" = Except.ok job ∧
      job.title ≠ "" ∧ job.department = "General" ∧ job.location = "Not specified" :=
  claim3_amended_defaults "Engineer " Json.null (Json.str "") (Json.str "https://u")
    "Acme" "" (by decide) rfl rfl

/-! ## The Ashby slug-variant retry policy (claim C8) -/

/-- The job list one Ashby API attempt produces (empty on an exception). -/
def ashbyAttemptJobs (env : Env) (try_slug company fallback_url : String) : List Job :=
  match (ashbyAttempt env try_slug company fallback_url).1 with
  | .ok jobs => jobs
  | .error _ => []

theorem ashbyAttempt_fst (env : Env) (try_slug company fallback_url : String) :
    (ashbyAttempt env try_slug company fallback_url).1 =
      Except.ok (ashbyAttemptJobs env try_slug company fallback_url) := by
  obtain ⟨jobs, h⟩ := ashbyAttempt_ok env try_slug company fallback_url
  unfold ashbyAttemptJobs
  rw [h]

theorem ashbyLoop_find (env : Env) (company fallback_url : String) :
    ∀ l : List String,
      (ashbyLoop env company fallback_url l).1 =
        (match (l.map (fun v => ashbyAttemptJobs env v company fallback_url)).find?
            (fun x => !x.isEmpty) with
         | some jobs => Except.ok jobs
         | none => (scrape_ashby_embedded env fallback_url company).1) := by
  intro l
  induction l with
  | nil => rfl
  | cons v rest ih =>
    unfold ashbyLoop
    rw [M.bind_fst_ok (ashbyAttempt_fst env v company fallback_url)]
    rcases Bool.eq_false_or_eq_true ((ashbyAttemptJobs env v company fallback_url).isEmpty)
      with he | he
    · rw [if_pos he, ih]
      simp only [List.map_cons, List.find?_cons, he, Bool.not_true]
    · rw [if_neg (by rw [he]; exact Bool.false_ne_true)]
      simp only [List.map_cons, List.find?_cons, he, Bool.not_false, M.pure_eq]

/-- Claim C8: `scrape_ashby` tries exactly the three case variants of the slug
(as given, lower-cased, capitalized) in order, returns the first variant's
non-empty job list, and falls back to embedded extraction exactly when every
variant yields zero jobs or fails. -/
theorem claim8_ashby_variants (env : Env) (slug company fallback_url : String) :
    (scrape_ashby env slug company fallback_url).1 =
      (match ([slug, pyLowerStr slug, pyCapitalizeStr slug].map
          (fun v => ashbyAttemptJobs env v company fallback_url)).find?
          (fun x => !x.isEmpty) with
       | some jobs => Except.ok jobs
       | none => (scrape_ashby_embedded env fallback_url company).1) :=
  ashbyLoop_find env company fallback_url _

/-! ## Lever non-array fallback (claim C9) -/

/-- Claim C9: when the Lever endpoint answers but its JSON body is not an
array, `scrape_lever` raises nothing past its boundary and returns exactly the
result of generic extraction on the fallback URL. -/
theorem claim9_lever_nonarray (env : Env) (slug company fallback_url : String)
    (resp : HttpResp) (j : Json)
    (hget : env.httpGet (leverUrl slug) = some resp)
    (hjson : env.jsonParse resp.body = some j)
    (hnarr : ∀ xs, j ≠ Json.arr xs) :
    (scrape_lever env slug company fallback_url).1 =
      (scrape_generic env fallback_url company).1 ∧
    ∃ jobs, (scrape_lever env slug company fallback_url).1 = Except.ok jobs := by
  have hng : netGet env (leverUrl slug) = (Except.ok resp, ["GET " ++ leverUrl slug]) := by
    simp [netGet, hget]
  have hlb : leverBody env resp.body company fallback_url =
      Except.error "Unexpected Lever response" := by
    unfold leverBody jsonOf
    rw [hjson]
    cases j with
    | arr xs => exact absurd rfl (hnarr xs)
    | null => rfl
    | bool b => rfl
    | num n => rfl
    | str s => rfl
    | obj fs => rfl
  have hb : M.bind (netGet env (leverUrl slug))
      (fun r => M.lift (leverBody env r.body company fallback_url)) =
      (Except.error "Unexpected Lever response", ["GET " ++ leverUrl slug] ++ []) :=
    M.bind_eq_ok hng (by unfold M.lift; rw [hlb])
  have hcatch : scrape_lever env slug company fallback_url =
      ((scrape_generic env fallback_url company).1,
       (["GET " ++ leverUrl slug] ++ []) ++ (scrape_generic env fallback_url company).2) :=
    M.catch_eq_of_error hb rfl
  obtain ⟨jv, hjv⟩ := scrape_generic_ok env fallback_url company
  constructor
  · rw [hcatch]
  · exact ⟨jv, by rw [hcatch]; exact hjv⟩

/-- A concrete environment in which the Lever endpoint answers with a JSON
object (not an array). -/
def envLever : Env :=
  { httpGet := fun u => if u = leverUrl "acme" then some ⟨200, u, "LEVERBODY"⟩ else none
    httpPost := fun _ => none
    render := fun _ => none
    hasPlaywright := false
    jsonParse := fun s => if s = "LEVERBODY" then some (Json.obj []) else none
    parseHtml := fun _ => ⟨[], [], []⟩
    urljoin := fun a b => a ++ b }

theorem claim9_witness :
    (scrape_lever envLever "acme" "Acme" "").1 = (scrape_generic envLever "" "Acme").1 ∧
    ∃ jobs, (scrape_lever envLever "acme" "Acme" "").1 = Except.ok jobs :=
  claim9_lever_nonarray envLever "acme" "Acme" "" ⟨200, leverUrl "acme", "LEVERBODY"⟩
    (Json.obj []) rfl rfl (fun _ h => Json.noConfusion h)

/-! ## Generic adapter strategy priority (claim C7) -/

/-- Amended claim C7: on a fetched, non-empty page *not carrying the embedded
widget marker*, whenever the schema.org strategy yields at least one record,
`scrape_generic` returns exactly those records — the class-heuristic and
link-scan strategies contribute nothing, even when class-keyword containers
are present. -/
theorem claim7_amended_schema_priority (env : Env) (jobs_url company html : String)
    (tr : List String)
    (hurl : jobs_url ≠ "")
    (hfetch : fetch_html env jobs_url true = (Except.ok (some html), tr))
    (hne : html ≠ "")
    (hmark : pyIn "ashby_jid=" html = false)
    (hschema : (scrape_generic_schema env (env.parseHtml html) jobs_url company).isEmpty = false)
    (_hclass : ((env.parseHtml html).classed.filter (fun c => classMatches c.classes)).isEmpty = false) :
    scrape_generic env jobs_url company =
      (Except.ok (scrape_generic_schema env (env.parseHtml html) jobs_url company), tr) := by
  unfold scrape_generic
  rw [if_neg hurl, hfetch, M.bind_mk_ok]
  dsimp only
  rw [if_neg hne, if_neg (by rw [hmark]; exact Bool.false_ne_true)]
  unfold genericFromDoc
  dsimp only
  rw [hschema]
  rw [if_pos (show (!false) = true from rfl)]
  simp only [M.pure_eq, List.append_nil]

/-- A page carrying the embedded-widget marker together with schema.org
markup and a class-keyword container. -/
def html7c : String := "page ashby_jid= marker"

def env7 : Env :=
  { httpGet := fun u => if u = "https://jobs.example" then some ⟨200, u, html7c⟩ else none
    httpPost := fun _ => none
    render := fun _ => none
    hasPlaywright := false
    jsonParse := fun s =>
      if s = "S1" then
        some (Json.obj [("@type", Json.str "JobPosting"), ("title", Json.str "Schema Engineer")])
      else none
    parseHtml := fun _ =>
      { anchors := [⟨"/x?ashby_jid=12345678-1234-1234-1234-123456789abc",
          "Embedded Engineer", ""⟩]
        ldScripts := [some "S1"]
        classed := [⟨["job-listing"], some ⟨"/a", "Engineer Two", ""⟩, "txt"⟩] }
    urljoin := fun a b => a ++ b }

/-- The job the embedded-Ashby path extracts from `env7`. -/
def embJob7 : Job :=
  { title := "Embedded Engineer", department := "General", location := "Not specified"
    url := Json.str "https://app.ashbyhq.com/jobs/12345678-1234-1234-1234-123456789abc"
    company := "Acme", company_website := "" }

/-- The job the schema.org strategy extracts from `env7`. -/
def schemaJob7 : Job :=
  { title := "Schema Engineer", department := "General", location := "Not specified"
    url := Json.str "https://jobs.example", company := "Acme", company_website := "" }

/-- Counterexample to C7 as stated: a fetched page containing schema.org
markup (yielding one record) and a class-keyword container, yet also the
embedded-widget marker `ashby_jid=`; `scrape_generic` is redirected to
embedded extraction and returns a record that is not schema.org-derived. -/
theorem claim7_counterexample :
    pyIn "ashby_jid=" html7c = true ∧
    (scrape_generic_schema env7 (env7.parseHtml html7c) "https://jobs.example" "Acme").isEmpty
      = false ∧
    ((env7.parseHtml html7c).classed.filter (fun c => classMatches c.classes)).isEmpty = false ∧
    (scrape_generic env7 "https://jobs.example" "Acme").1 = Except.ok [embJob7] ∧
    scrape_generic_schema env7 (env7.parseHtml html7c) "https://jobs.example" "Acme"
      = [schemaJob7] ∧
    embJob7.title ≠ schemaJob7.title :=
  ⟨rfl, rfl, rfl, rfl, rfl, by decide⟩

/-- A page without the marker, with schema.org markup and a class container,
for the amended C7. -/
def env7w : Env :=
  { httpGet := fun u => if u = "https://jobs.example" then some ⟨200, u, "<page>"⟩ else none
    httpPost := fun _ => none
    render := fun _ => none
    hasPlaywright := false
    jsonParse := fun s =>
      if s = "S1" then
        some (Json.obj [("@type", Json.str "JobPosting"), ("title", Json.str "Schema Engineer")])
      else none
    parseHtml := fun _ =>
      { anchors := [⟨"/a", "Engineer Two jobs here", ""⟩]
        ldScripts := [some "S1"]
        classed := [⟨["job-listing"], some ⟨"/a", "Engineer Two", ""⟩, "txt"⟩] }
    urljoin := fun a b => a ++ b }

theorem claim7_amended_witness :
    scrape_generic env7w "https://jobs.example" "Acme" =
      (Except.ok (scrape_generic_schema env7w (env7w.parseHtml "<page>")
        "https://jobs.example" "Acme"),
       ["GET https://jobs.example"]) :=
  claim7_amended_schema_priority env7w "https://jobs.example" "Acme" "<page>"
    ["GET https://jobs.example"] (by decide) rfl (by decide) (by decide) rfl rfl

/-! ## Title deduplication in the embedded-Ashby adapter (claim C10) -/

theorem dropWhile_dropWhile {α : Type} (p : α → Bool) (l : List α) :
    (l.dropWhile p).dropWhile p = l.dropWhile p := by
  induction l with
  | nil => rfl
  | cons c t ih =>
    rw [List.dropWhile_cons]
    rcases Bool.eq_false_or_eq_true (p c) with h | h
    · rw [if_pos h, ih]
    · rw [if_neg (by rw [h]; exact Bool.false_ne_true), List.dropWhile_cons,
        if_neg (by rw [h]; exact Bool.false_ne_true)]

theorem dropWhile_prefix_self {α : Type} (p : α → Bool) {x y : List α}
    (hx : x.dropWhile p = x) (hyx : y <+: x) : y.dropWhile p = y := by
  cases y with
  | nil => rfl
  | cons a t =>
    obtain ⟨r, hr⟩ := hyx
    have hpa : p a = false := by
      rcases Bool.eq_false_or_eq_true (p a) with h | h
      · rw [← hr] at hx
        simp only [List.cons_append] at hx
        rw [List.dropWhile_cons, if_pos h] at hx
        have hlen := congrArg List.length hx
        have hle : ((t ++ r).dropWhile p).length ≤ (t ++ r).length :=
          (List.dropWhile_suffix p).length_le
        simp only [List.length_cons] at hlen
        omega
      · exact h
    rw [List.dropWhile_cons, if_neg (by rw [hpa]; exact Bool.false_ne_true)]

theorem rstripL_prefix (p : Char → Bool) (x : List Char) : rstripL p x <+: x := by
  have h2 : (x.reverse.dropWhile p).reverse <+: x.reverse.reverse :=
    List.reverse_prefix.mpr (List.dropWhile_suffix p)
  rw [List.reverse_reverse] at h2
  exact h2

theorem rstripL_rstripL (p : Char → Bool) (x : List Char) :
    rstripL p (rstripL p x) = rstripL p x := by
  unfold rstripL
  rw [List.reverse_reverse, dropWhile_dropWhile]

theorem stripL_idem (p : Char → Bool) (l : List Char) :
    stripL p (stripL p l) = stripL p l := by
  unfold stripL
  have hA : (l.dropWhile p).dropWhile p = l.dropWhile p := dropWhile_dropWhile p l
  have hPre : rstripL p (l.dropWhile p) <+: l.dropWhile p := rstripL_prefix p _
  have hD : (rstripL p (l.dropWhile p)).dropWhile p = rstripL p (l.dropWhile p) :=
    dropWhile_prefix_self p hA hPre
  rw [hD, rstripL_rstripL]

/-- `str.strip()` is idempotent. -/
theorem pyStrip_idem (s : String) : pyStrip (pyStrip s) = pyStrip s := by
  unfold pyStrip
  rw [show (String.mk (stripL wsChar s.toList)).toList = stripL wsChar s.toList from rfl,
    stripL_idem]

/-- Adding one fresh title to both the job list and the `seen` set preserves
the dedup invariant of the scraping loops. -/
theorem seen_step {jobs : List Job} {seen : List String} {T : String}
    (h1 : ∀ j ∈ jobs, j.title ∈ seen) (h2 : (jobs.map Job.title).Nodup)
    (hT : T ∉ seen) (hTfix : pyStrip T = T) (d l : String) (u : Json) (c w : String) :
    (∀ j ∈ jobs ++ [make_job T d l u c w], j.title ∈ seen ++ [T]) ∧
    ((jobs ++ [make_job T d l u c w]).map Job.title).Nodup := by
  constructor
  · intro j hj
    rcases List.mem_append.mp hj with hj | hj
    · exact List.mem_append.mpr (Or.inl (h1 j hj))
    · rw [List.mem_singleton.mp hj]
      refine List.mem_append.mpr (Or.inr ?_)
      show pyStrip T ∈ [T]
      rw [hTfix]
      exact List.mem_singleton.mpr rfl
  · rw [List.map_append, List.nodup_append]
    refine ⟨h2, by simp, ?_⟩
    intro t ht htn
    simp only [List.map_cons, List.map_nil, List.mem_singleton] at htn
    have htT : t = pyStrip T := htn
    rw [hTfix] at htT
    apply hT
    rw [← htT]
    obtain ⟨j, hj, hjt⟩ := List.mem_map.mp ht
    exact hjt ▸ h1 j hj

theorem embPat1_invariant (env : Env) (u c : String) :
    ∀ (anchors : List Anchor) (jobs : List Job) (seen : List String),
      (∀ j ∈ jobs, j.title ∈ seen) → (jobs.map Job.title).Nodup →
      (∀ j ∈ (embPat1 env u c anchors jobs seen).1,
        j.title ∈ (embPat1 env u c anchors jobs seen).2) ∧
      ((embPat1 env u c anchors jobs seen).1.map Job.title).Nodup := by
  intro anchors
  induction anchors with
  | nil => exact fun jobs seen h1 h2 => ⟨h1, h2⟩
  | cons a rest ih =>
    intro jobs seen h1 h2
    unfold embPat1
    split
    · exact ih jobs seen h1 h2
    · dsimp only
      split
      · exact ih jobs seen h1 h2
      · rename_i hguard
        have hT : pyStrip (reSubViewEnd (pyStrip a.text)) ∉ seen := by
          intro hmem
          exact hguard (by simp [hmem])
        exact ih _ _
          (seen_step h1 h2 hT (pyStrip_idem _) _ _ _ _ _).1
          (seen_step h1 h2 hT (pyStrip_idem _) _ _ _ _ _).2

theorem embPat2_nodup (env : Env) (u c : String) (slug : Option String) :
    ∀ (anchors : List Anchor) (jobs : List Job) (seen : List String),
      (∀ j ∈ jobs, j.title ∈ seen) → (jobs.map Job.title).Nodup →
      ((embPat2 env u c slug anchors jobs seen).map Job.title).Nodup := by
  intro anchors
  induction anchors with
  | nil => exact fun jobs seen h1 h2 => h2
  | cons a rest ih =>
    intro jobs seen h1 h2
    unfold embPat2
    dsimp only
    split
    · exact ih jobs seen h1 h2
    · split
      · exact ih jobs seen h1 h2
      · split
        · exact ih jobs seen h1 h2
        · rename_i hguard
          have hT : pyStrip a.text ∉ seen := by
            intro hmem
            exact hguard (by simp [hmem])
          exact ih _ _
            (seen_step h1 h2 hT (pyStrip_idem _) _ _ _ _ _).1
            (seen_step h1 h2 hT (pyStrip_idem _) _ _ _ _ _).2

/-- Claim C10: the job list returned by `scrape_ashby_embedded` never contains
two records with the same title — the shared `seen` set deduplicates titles
across both link patterns. -/
theorem claim10_embedded_title_dedup (env : Env) (jobs_url company : String)
    (jobs : List Job) (tr : List String)
    (h : scrape_ashby_embedded env jobs_url company = (Except.ok jobs, tr)) :
    (jobs.map Job.title).Nodup := by
  obtain ⟨h?, hfetch⟩ := fetch_html_ok env jobs_url true
  have h1 : (scrape_ashby_embedded env jobs_url company).1 = Except.ok jobs := by rw [h]
  unfold scrape_ashby_embedded at h1
  rw [M.bind_fst_ok hfetch] at h1
  cases h? with
  | none =>
    simp only [M.pure_eq, Except.ok.injEq] at h1
    rw [← h1]
    exact List.nodup_nil
  | some html =>
    dsimp only at h1
    split at h1
    · simp only [M.pure_eq, Except.ok.injEq] at h1
      rw [← h1]
      exact List.nodup_nil
    · split at h1
      · rename_i hp1
        simp only [M.pure_eq, Except.ok.injEq] at h1
        rw [← h1]
        have hnil : (embPat1 env jobs_url company (env.parseHtml html).anchors [] []).1 = [] :=
          List.isEmpty_iff.mp hp1
        apply embPat2_nodup env jobs_url company _ (env.parseHtml html).anchors
        · intro j hj
          rw [hnil] at hj
          exact absurd hj (List.not_mem_nil j)
        · rw [hnil]
          exact List.nodup_nil
      · simp only [M.pure_eq, Except.ok.injEq] at h1
        rw [← h1]
        exact (embPat1_invariant env jobs_url company (env.parseHtml html).anchors [] []
          (fun j hj => absurd hj (List.not_mem_nil j)) List.nodup_nil).2

/-- An environment whose embedded page carries two links with the same
title. -/
def envEmb : Env :=
  { httpGet := fun u => if u = "https://e.example" then some ⟨200, u, "x ashby_jid= y"⟩ else none
    httpPost := fun _ => none
    render := fun _ => none
    hasPlaywright := false
    jsonParse := fun _ => none
    parseHtml := fun _ =>
      { anchors :=
          [⟨"/x?ashby_jid=12345678-1234-1234-1234-123456789abc", "Platform Engineer", ""⟩,
           ⟨"/y?ashby_jid=abcdefab-5678-5678-5678-abcdefabcdef", "Platform Engineer", ""⟩]
        ldScripts := []
        classed := [] }
    urljoin := fun a b => a ++ b }

/-- The single job `envEmb` yields (the second same-title link is dropped). -/
def jobEmb10 : Job :=
  { title := "Platform Engineer", department := "General", location := "Not specified"
    url := Json.str "https://app.ashbyhq.com/jobs/12345678-1234-1234-1234-123456789abc"
    company := "Acme", company_website := "" }

theorem claim10_witness : (([jobEmb10]).map Job.title).Nodup :=
  claim10_embedded_title_dedup envEmb "https://e.example" "Acme" [jobEmb10]
    ["GET https://e.example"] rfl

end Burst
